import Mathlib

set_option maxRecDepth 100000

/-!
Verification development for the peripheral-config generator
(`src/peripheral_parser.py`).  The Python program consumes an
already-parsed tree of nested mappings / sequences / scalars, applies
defaults, validates, and emits C initialization code.  We embed the
dynamic Python values as the inductive `Value`, and each routine of the
source as a Lean function over `Value`.  A routine that can raise a
Python exception (KeyError, TypeError, IndexError, AttributeError)
is embedded as an `Option`-valued function; `none` means the run dies
with an uncaught exception and no artifact is produced.
-/

/-- A decoded configuration-tree value: the YAML scalars and containers
the program manipulates (mapping keys are strings, as in the input
contract "keys unique" over string keys). -/
inductive Value where
  | null : Value
  | bool (b : Bool) : Value
  | int (n : Int) : Value
  | str (s : String) : Value
  | list (xs : List Value) : Value
  | map (kvs : List (String × Value)) : Value
deriving Repr

mutual

/-- Python `repr` of a value, as used when a container is interpolated
into an f-string.  Strings are rendered between single quotes; we do not
model Python's escaping of quotes/backslashes inside the string (no
claim exercises it). -/
def pyRepr : Value → String
  | .null => "None"
  | .bool b => if b then "True" else "False"
  | .int n => toString n
  | .str s => "'" ++ s ++ "'"
  | .list xs => "[" ++ pyReprList xs ++ "]"
  | .map kvs => "\x7b" ++ pyReprPairs kvs ++ "\x7d"

/-- comma-separated `repr`s of list elements. -/
def pyReprList : List Value → String
  | [] => ""
  | [x] => pyRepr x
  | x :: xs => pyRepr x ++ ", " ++ pyReprList xs

/-- comma-separated `repr`s of dict items. -/
def pyReprPairs : List (String × Value) → String
  | [] => ""
  | [(k, v)] => "'" ++ k ++ "': " ++ pyRepr v
  | (k, v) :: kvs => "'" ++ k ++ "': " ++ pyRepr v ++ ", " ++ pyReprPairs kvs

end

/-- Python `str()` of a value, as interpolated by an f-string:
`str` for scalars (strings verbatim, `True`/`False`, `None`, decimal
integers), `repr`-style rendering for containers. -/
def pyStr : Value → String
  | .null => "None"
  | .bool b => if b then "True" else "False"
  | .int n => toString n
  | .str s => s
  | .list xs => "[" ++ pyReprList xs ++ "]"
  | .map kvs => "\x7b" ++ pyReprPairs kvs ++ "\x7d"

/-- Python truthiness: `None`, `False`, `0`, `""`, `[]` and `\x7b\x7d`
are falsy, everything else truthy. -/
def pyTruthy : Value → Bool
  | .null => false
  | .bool b => b
  | .int n => n != 0
  | .str s => s ≠ ""
  | .list xs => !xs.isEmpty
  | .map kvs => !kvs.isEmpty

mutual

/-- Python `==` between tree values: scalars compare by value with the
numeric coercion `True == 1`, `False == 0`; lists compare elementwise;
mappings are compared entry-by-entry in stored order (Python's dict
equality is key-set based, but no claim compares dicts for equality).
Values of unrelated kinds compare unequal. -/
def pyEq : Value → Value → Bool
  | .null, .null => true
  | .bool a, .bool b => a = b
  | .int a, .int b => a = b
  | .bool a, .int b => (if a then (1 : Int) else 0) = b
  | .int a, .bool b => a = (if b then (1 : Int) else 0)
  | .str a, .str b => a = b
  | .list a, .list b => pyEqList a b
  | .map a, .map b => pyEqPairs a b
  | _, _ => false

/-- elementwise `==` on lists. -/
def pyEqList : List Value → List Value → Bool
  | [], [] => true
  | a :: as', b :: bs' => pyEq a b && pyEqList as' bs'
  | _, _ => false

/-- entrywise `==` on dict items. -/
def pyEqPairs : List (String × Value) → List (String × Value) → Bool
  | [], [] => true
  | (ka, va) :: as', (kb, vb) :: bs' => ka = kb && pyEq va vb && pyEqPairs as' bs'
  | _, _ => false

end

/-- Whether a dict (association list with unique keys) has key `k`. -/
def hasKey (kvs : List (String × Value)) (k : String) : Bool :=
  (kvs.lookup k).isSome

/-- `d.get(k, dflt)`: `none` models the `AttributeError` Python raises
when `.get` is called on a non-dict value. -/
def pyGetD (v : Value) (k : String) (dflt : Value) : Option Value :=
  match v with
  | .map kvs => some ((kvs.lookup k).getD dflt)
  | _ => none

/-- `d.get(k)` (default `None`). -/
def pyGet (v : Value) (k : String) : Option Value :=
  pyGetD v k .null

/-- `d[k]` on a dict: `none` models both the `KeyError` on a missing key
and the `TypeError` of subscripting a non-dict by a string key. -/
def pyIndex (v : Value) (k : String) : Option Value :=
  match v with
  | .map kvs => kvs.lookup k
  | _ => none

/-- `k in v` for a string `k`: key test on a dict, substring test on a
string, membership (`==`) on a list; `TypeError` (`none`) otherwise. -/
def pyContains (v : Value) (k : String) : Option Bool :=
  match v with
  | .map kvs => some (hasKey kvs k)
  | .str s => some (decide (List.IsInfix k.toList s.toList))
  | .list xs => some (xs.any (fun x => pyEq (.str k) x))
  | _ => none

/-- `for x in v`: a list yields its elements, a string its characters
(as one-character strings), a dict its keys; iterating `None`, an int or
a bool raises `TypeError` (`none`). -/
def pyElems (v : Value) : Option (List Value) :=
  match v with
  | .list xs => some xs
  | .str s => some (s.toList.map (fun c => .str (String.singleton c)))
  | .map kvs => some (kvs.map (fun kv => .str kv.1))
  | _ => none

/-- `isinstance(v, int)`: in Python `bool` is a subclass of `int`, so
booleans pass this test. -/
def pyIsInt : Value → Bool
  | .int _ => true
  | .bool _ => true
  | _ => false

/-- The integer value of an int-like value (`True` counts as 1,
`False` as 0), used where the source does arithmetic or comparisons. -/
def pyIntVal : Value → Int
  | .int n => n
  | .bool b => if b then 1 else 0
  | _ => 0

/-- `isinstance(v, bool)`. -/
def pyIsBool : Value → Bool
  | .bool _ => true
  | _ => false

/-- `isinstance(v, str)`. -/
def pyIsStr : Value → Bool
  | .str _ => true
  | _ => false

/-- Whether a value is unhashable in Python (lists and dicts): adding
one to a set raises `TypeError`. -/
def pyUnhashable : Value → Bool
  | .list _ => true
  | .map _ => true
  | _ => false

/-- Monadic map over a list in the exception (`Option`) monad: the
Python `for` loop that dies at the first raising iteration. -/
def optMapM (f : α → Option β) : List α → Option (List β)
  | [] => some []
  | x :: xs =>
    match f x with
    | none => none
    | some y =>
      match optMapM f xs with
      | none => none
      | some ys => some (y :: ys)

/-- Concatenation of emitted text chunks. -/
def strJoin : List String → String
  | [] => ""
  | s :: ss => s ++ strJoin ss

/-! ## Schema Defaults Table and Default Applier (`defaults`, `_apply_defaults`) -/

/-- `defaults["gpio"]` in source (insertion) order. -/
def gpio_defaults : List (String × Value) :=
  [("pull", .str "none"), ("speed", .str "medium"), ("direction", .str "input")]

/-- `defaults["uart"]`. -/
def uart_defaults : List (String × Value) :=
  [("parity", .str "none"), ("stop_bits", .int 1), ("data_bits", .int 8),
   ("enabled", .bool true)]

/-- `defaults["i2c"]`. -/
def i2c_defaults : List (String × Value) :=
  [("speed", .int 100000), ("enabled", .bool true)]

/-- `defaults["timers"]`. -/
def timers_defaults : List (String × Value) :=
  [("enabled", .bool true), ("mode", .str "timer")]

/-- The loop `for key, default_val in tbl: if key not in e: e[key] = default_val`
on a dict entity: each missing key is appended (Python dict insertion order). -/
def addMissing (kvs : List (String × Value)) : List (String × Value) → List (String × Value)
  | [] => kvs
  | (k, v) :: tbl => addMissing (if hasKey kvs k then kvs else kvs ++ [(k, v)]) tbl

/-- One entity of a category list under the defaults loop.  A dict entity
gets its missing keys filled.  A non-dict entity can survive only when no
key needs to be assigned (`key not in entity` is a substring test on a
string entity and a membership test on a list entity); the first missing
key triggers an item assignment, which raises `TypeError` on strings and
lists and `in` itself raises on `None`/int/bool. -/
def applyEntityDefaults (tbl : List (String × Value)) : Value → Option Value
  | .map kvs => some (.map (addMissing kvs tbl))
  | .str s =>
    if tbl.all (fun kv => decide (List.IsInfix kv.1.toList s.toList)) then
      some (.str s)
    else none
  | .list xs =>
    if tbl.all (fun kv => xs.any (fun x => pyEq (.str kv.1) x)) then
      some (.list xs)
    else none
  | v => if tbl.isEmpty then some v else none

/-- One category's `for entity in container:` defaults loop.  A list
container has its (dict) entities updated in place; any other iterable
leaves the container unchanged when it does not raise (its elements are
fresh immutable strings). -/
def applyListDefaults (tbl : List (String × Value)) (container : Value) : Option Value :=
  match container with
  | .list xs =>
    match optMapM (applyEntityDefaults tbl) xs with
    | none => none
    | some ys => some (.list ys)
  | v =>
    match pyElems v with
    | none => none
    | some es =>
      match optMapM (applyEntityDefaults tbl) es with
      | none => none
      | some _ => some v

/-- Replace the value at an existing key, keeping position (Python dict
item assignment on a present key); a missing key leaves the dict
unchanged (the write-back paths below only fire on present keys). -/
def setKey : List (String × Value) → String → Value → List (String × Value)
  | [], _, _ => []
  | (k', v') :: rest, k, v =>
    if k' = k then (k', v) :: rest else (k', v') :: setKey rest k v

/-- `self.config.get(k1, \x7b\x7d).get(k2, [])`. -/
def readPath2 (c : Value) (k1 k2 : String) : Option Value :=
  match pyGetD c k1 (.map []) with
  | none => none
  | some g => pyGetD g k2 (.list [])

/-- Write-back of the in-place mutation of the list at `c[k1][k2]`: the
nested value is replaced only when the whole path exists (otherwise the
loop ran over a fresh default and mutated nothing reachable). -/
def setPath2 (c : Value) (k1 k2 : String) (v : Value) : Value :=
  match c with
  | .map kvs =>
    match kvs.lookup k1 with
    | some (.map inner) =>
      if hasKey inner k2 then .map (setKey kvs k1 (.map (setKey inner k2 v)))
      else c
    | _ => c
  | _ => c

/-- Write-back of the in-place mutation of the list at `c[k]`. -/
def setPath1 (c : Value) (k : String) (v : Value) : Value :=
  match c with
  | .map kvs => if hasKey kvs k then .map (setKey kvs k v) else c
  | _ => c

/-- One category pass of `_apply_defaults` over the entities at
`config[k1][k2]`: read with defaulted `.get`s, run the defaults loop,
write back. -/
def stepPath2 (k1 k2 : String) (tbl : List (String × Value)) (c : Value) : Option Value :=
  match readPath2 c k1 k2 with
  | none => none
  | some xs =>
    match applyListDefaults tbl xs with
    | none => none
    | some xs' => some (setPath2 c k1 k2 xs')

/-- One category pass over the entities at `config[k]` (the flat
`timers` list). -/
def stepPath1 (k : String) (tbl : List (String × Value)) (c : Value) : Option Value :=
  match pyGetD c k (.list []) with
  | none => none
  | some xs =>
    match applyListDefaults tbl xs with
    | none => none
    | some xs' => some (setPath1 c k xs')

/-- `_apply_defaults`: the four category passes in source order (gpio
pins, uart, i2c, timers).  Diagnostic prints are ignored; `none` is an
uncaught exception. -/
def apply_defaults (c : Value) : Option Value :=
  match stepPath2 "gpio" "pins" gpio_defaults c with
  | none => none
  | some c1 =>
    match stepPath2 "communication" "uart" uart_defaults c1 with
    | none => none
    | some c2 =>
      match stepPath2 "communication" "i2c" i2c_defaults c2 with
      | none => none
      | some c3 => stepPath1 "timers" timers_defaults c3

/-! ## Validators (`_validate_structure`, `_validate_board_section`,
`_validate_gpio_section`, `_validate_communication_section`,
`_validate_timers_section`) -/

/-- `valid_directions` (a Python set literal, kept in declaration order). -/
def valid_directions : List String := ["input", "output", "output_open_drain"]

/-- `valid_pulls`. -/
def valid_pulls : List String := ["none", "pull_up", "pull_down"]

/-- `valid_speeds`. -/
def valid_speeds : List String := ["low", "medium", "high", "very_high"]

/-- How an f-string renders one of the validator's sets of strings.
CPython's set display order depends on the per-run hash seed; we model
it in declaration order (no claim depends on this text). -/
def pySetRepr (xs : List String) : String :=
  "\x7b" ++ String.intercalate ", " (xs.map (fun s => "'" ++ s ++ "'")) ++ "\x7d"

/-- Membership of a value in a set of strings (`v in \x7b"a", ...\x7d`):
only an equal string is a member. -/
def inStrSet (v : Value) (set : List String) : Bool :=
  match v with
  | .str s => set.contains s
  | _ => false

/-- `for f in fields: if f not in v: errors.append(pre + f + post)` —
shared by the structure and board validators. -/
def contains_check_errs (v : Value) (pre post : String) : List String → Option (List String)
  | [] => some []
  | f :: fs =>
    match pyContains v f with
    | none => none
    | some present =>
      match contains_check_errs v pre post fs with
      | none => none
      | some rest => some ((if present then [] else [pre ++ f ++ post]) ++ rest)

/-- `_validate_structure`: one `missing section <name>` error per absent
top-level key. -/
def validate_structure (c : Value) : Option (List String) :=
  contains_check_errs c "missing section " "" ["board", "gpio", "communication", "timers"]

/-- `_validate_board_section`: one `board <field> required` error per
key absent from the board mapping (presence only — the value is not
inspected). -/
def validate_board_section (c : Value) : Option (List String) :=
  match pyGetD c "board" (.map []) with
  | none => none
  | some b => contains_check_errs b "board " " required" ["name", "mcu", "clock_freq"]

/-- The body of `_validate_gpio_section`'s loop for one pin: threading
the `seen` set of pin identifiers, producing that pin's errors in append
order (duplicate, direction, pull, speed, alt_function).  `none` models
`.get` on a non-dict entity (AttributeError), hashing an unhashable
identifier into `seen` (TypeError), or testing an unhashable value
against a set of valid strings (TypeError). -/
def gpio_pin_errs (idx : Nat) (seen : List Value) (pin : Value) :
    Option (List Value × List String) :=
  match pin with
  | .map kvs =>
    let name := (kvs.lookup "pin").getD .null
    if !pyTruthy name then some (seen, ["gpio " ++ toString idx ++ " missing pin"])
    else if pyUnhashable name then none
    else
      let dup := seen.any (fun x => pyEq name x)
      let seen' := if dup then seen else seen ++ [name]
      let dv := (kvs.lookup "direction").getD .null
      let pv := (kvs.lookup "pull").getD .null
      let sv := (kvs.lookup "speed").getD .null
      let av := (kvs.lookup "alt_function").getD .null
      if pyUnhashable dv || pyUnhashable pv || pyUnhashable sv then none
      else
        some (seen',
          (if dup then ["duplicate pin " ++ pyStr name] else []) ++
          (if inStrSet dv valid_directions then [] else
            [pyStr name ++ " direction must be one of " ++ pySetRepr valid_directions]) ++
          (if inStrSet pv valid_pulls then [] else
            [pyStr name ++ " pull must be one of " ++ pySetRepr valid_pulls]) ++
          (if inStrSet sv valid_speeds then [] else
            [pyStr name ++ " speed must be one of " ++ pySetRepr valid_speeds]) ++
          (match av with
           | .null => []
           | .str _ => []
           | _ => [pyStr name ++ " alt_function must be a string (STM32 macro)"]))
  | _ => none

/-- The `for idx, pin in enumerate(pins)` loop of `_validate_gpio_section`. -/
def gpio_scan (idx : Nat) (seen : List Value) : List Value → Option (List Value × List String)
  | [] => some (seen, [])
  | p :: rest =>
    match gpio_pin_errs idx seen p with
    | none => none
    | some (seen', errs) =>
      match gpio_scan (idx + 1) seen' rest with
      | none => none
      | some (seenF, more) => some (seenF, errs ++ more)

/-- `_validate_gpio_section`. -/
def validate_gpio_section (c : Value) : Option (List String) :=
  match readPath2 c "gpio" "pins" with
  | none => none
  | some pins =>
    match pyElems pins with
    | none => none
    | some es =>
      match gpio_scan 0 [] es with
      | none => none
      | some (_, errs) => some errs

/-- One UART entity's checks in `_validate_communication_section`:
missing instance, `enabled` boolean-typed, and, when `enabled` is
truthy, `baudrate` a positive integer (booleans pass `isinstance(_, int)`
with `True` = 1, `False` = 0). -/
def uart_errs (u : Value) : Option (List String) :=
  match u with
  | .map kvs =>
    let inst := (kvs.lookup "instance").getD .null
    let instQ := (kvs.lookup "instance").getD (.str "?")
    let en := (kvs.lookup "enabled").getD .null
    let bd := (kvs.lookup "baudrate").getD .null
    some ((if pyTruthy inst then [] else ["uart missing instance"]) ++
      (if pyIsBool en then [] else [pyStr instQ ++ " uart enabled must be bool"]) ++
      (if pyTruthy en && (!pyIsInt bd || decide (pyIntVal bd ≤ 0)) then
        [(if pyTruthy inst then pyStr inst else "uart") ++ " invalid baudrate"]
       else []))
  | _ => none

/-- One I2C entity's checks (symmetric, with `speed`). -/
def i2c_errs (i : Value) : Option (List String) :=
  match i with
  | .map kvs =>
    let inst := (kvs.lookup "instance").getD .null
    let instQ := (kvs.lookup "instance").getD (.str "?")
    let en := (kvs.lookup "enabled").getD .null
    let sp := (kvs.lookup "speed").getD .null
    some ((if pyTruthy inst then [] else ["i2c missing instance"]) ++
      (if pyIsBool en then [] else [pyStr instQ ++ " i2c enabled must be bool"]) ++
      (if pyTruthy en && (!pyIsInt sp || decide (pyIntVal sp ≤ 0)) then
        [(if pyTruthy inst then pyStr inst else "i2c") ++ " invalid speed"]
       else []))
  | _ => none

/-- `_validate_communication_section`. -/
def validate_communication_section (c : Value) : Option (List String) :=
  match readPath2 c "communication" "uart" with
  | none => none
  | some us =>
    match pyElems us with
    | none => none
    | some ue =>
      match optMapM uart_errs ue with
      | none => none
      | some uerrs =>
        match readPath2 c "communication" "i2c" with
        | none => none
        | some is' =>
          match pyElems is' with
          | none => none
          | some ie =>
            match optMapM i2c_errs ie with
            | none => none
            | some ierrs => some (List.flatten uerrs ++ List.flatten ierrs)

/-- One timer entity's checks in `_validate_timers_section`: missing
instance, `enabled` boolean-typed, and, when `enabled` is truthy,
positive-integer `prescaler` and `period` (independently) and the
combined PWM requirement that `duty_cycle` and `channel` keys both be
present when `mode == "pwm"`. -/
def timer_errs (t : Value) : Option (List String) :=
  match t with
  | .map kvs =>
    let inst := (kvs.lookup "instance").getD .null
    let instQ := (kvs.lookup "instance").getD (.str "?")
    let en := (kvs.lookup "enabled").getD .null
    let psc := (kvs.lookup "prescaler").getD .null
    let per := (kvs.lookup "period").getD .null
    let mode := (kvs.lookup "mode").getD .null
    some ((if pyTruthy inst then [] else ["timer missing instance"]) ++
      (if pyIsBool en then [] else [pyStr instQ ++ " timer enabled must be bool"]) ++
      (if pyTruthy en then
        (if !pyIsInt psc || decide (pyIntVal psc ≤ 0) then
          [pyStr inst ++ " invalid prescaler"] else []) ++
        (if !pyIsInt per || decide (pyIntVal per ≤ 0) then
          [pyStr inst ++ " invalid period"] else []) ++
        (if pyEq mode (.str "pwm") && (!hasKey kvs "duty_cycle" || !hasKey kvs "channel") then
          [pyStr inst ++ " pwm needs duty_cycle and channel"] else [])
       else []))
  | _ => none

/-- `_validate_timers_section`. -/
def validate_timers_section (c : Value) : Option (List String) :=
  match pyGetD c "timers" (.list []) with
  | none => none
  | some ts =>
    match pyElems ts with
    | none => none
    | some te =>
      match optMapM timer_errs te with
      | none => none
      | some terrs => some (List.flatten terrs)

/-- The error list accumulated by `load_and_validate` after defaults are
applied: the five validators' messages in call order. -/
def validation_errors (c : Value) : Option (List String) :=
  match validate_structure c with
  | none => none
  | some e1 =>
    match validate_board_section c with
    | none => none
    | some e2 =>
      match validate_gpio_section c with
      | none => none
      | some e3 =>
        match validate_communication_section c with
        | none => none
        | some e4 =>
          match validate_timers_section c with
          | none => none
          | some e5 => some (e1 ++ e2 ++ e3 ++ e4 ++ e5)

/-- `load_and_validate` on an already-decoded tree: apply defaults, then
validate; yields the mutated configuration and the full error list
(`none` = an uncaught exception before the report). -/
def load_and_validate (c : Value) : Option (Value × List String) :=
  match apply_defaults c with
  | none => none
  | some c' =>
    match validation_errors c' with
    | none => none
    | some errs => some (c', errs)

/-! ## Code Emitter (`handle_var_name`, `generate_c_file`, `_write_*_c`) -/

/-- `pull_map`. -/
def pull_map : List (String × String) :=
  [("none", "GPIO_NOPULL"), ("pull_up", "GPIO_PULLUP"), ("pull_down", "GPIO_PULLDOWN")]

/-- `speed_map`. -/
def speed_map : List (String × String) :=
  [("low", "GPIO_SPEED_FREQ_LOW"), ("medium", "GPIO_SPEED_FREQ_MEDIUM"),
   ("high", "GPIO_SPEED_FREQ_HIGH"), ("very_high", "GPIO_SPEED_FREQ_VERY_HIGH")]

/-- `parity_map` (local to `_write_uart_c`). -/
def parity_map : List (String × String) :=
  [("none", "UART_PARITY_NONE"), ("even", "UART_PARITY_EVEN"), ("odd", "UART_PARITY_ODD")]

/-- `m[v]` for one of the fixed string-keyed lookup tables: a missing or
non-string key raises `KeyError`/`TypeError` (`none`). -/
def mapIndex (m : List (String × String)) (v : Value) : Option String :=
  match v with
  | .str s => m.lookup s
  | _ => none

/-- `instance.lower()` over the character list (the identifiers in play
are ASCII; Lean's `Char.toLower` lowercases exactly A-Z). -/
def strLower (s : String) : String := String.mk (s.data.map Char.toLower)

/-- `s.startswith(p)`. -/
def strStartsWith (s p : String) : Bool := p.data.isPrefixOf s.data

/-- the slice `s[n:]`. -/
def strDrop (s : String) (n : Nat) : String := String.mk (s.data.drop n)

/-- `handle_var_name`: first matching known prefix of the lowercased
instance wins, in `prefix_map` insertion order ("usart", "i2c", "tim",
"timers" — the last is unreachable behind "tim"); otherwise the passed
generic prefix is prepended. -/
def handle_var_name (pfx : String) (inst : String) : String :=
  let lower := strLower inst
  if strStartsWith lower "usart" then "huart" ++ strDrop lower 5
  else if strStartsWith lower "i2c" then "hi2c" ++ strDrop lower 3
  else if strStartsWith lower "tim" then "htim" ++ strDrop lower 3
  else if strStartsWith lower "timers" then "htim" ++ strDrop lower 6
  else pfx ++ lower

/-- The body of `_write_gpio_c`'s loop for one pin, threading the set of
ports already clock-enabled.  The pin identifier is subscripted
(`pin["pin"][1]`, `[2:]`): we require a string of length at least two
(`none` models the `IndexError` on shorter strings and the `KeyError` /
type errors elsewhere; Python would also subscript a list identifier
here, but such a configuration cannot pass validation, whose `seen` set
cannot hash it). -/
def gpio_pin_c (seen : List Char) (pin : Value) : Option (List Char × String) :=
  match pin with
  | .map kvs =>
    match kvs.lookup "pin" with
    | some (.str name) =>
      match name.toList with
      | _ :: port :: numChars =>
        let num : String := String.mk numChars
        let clock := if seen.contains port then "" else
          "    __HAL_RCC_GPIO" ++ String.singleton port ++ "_CLK_ENABLE();\n"
        let seen' := if seen.contains port then seen else seen ++ [port]
        let cm := pyStr ((kvs.lookup "comment").getD (.str ""))
        let modePart : Option String :=
          if hasKey kvs "alt_function" then
            some ("    GpioStruct.Mode = GPIO_MODE_AF_PP;\n" ++
              "    GpioStruct.Alternate = " ++
              pyStr ((kvs.lookup "alt_function").getD .null) ++ ";\n")
          else
            match kvs.lookup "direction" with
            | none => none
            | some d =>
              some (if pyEq d (.str "input") then
                  "    GpioStruct.Mode = GPIO_MODE_INPUT;\n"
                else if pyEq d (.str "output_open_drain") then
                  "    GpioStruct.Mode = GPIO_MODE_OUTPUT_OD;\n"
                else "    GpioStruct.Mode = GPIO_MODE_OUTPUT_PP;\n")
        match modePart with
        | none => none
        | some mp =>
          match kvs.lookup "pull" with
          | none => none
          | some pv =>
            match mapIndex pull_map pv with
            | none => none
            | some ptok =>
              match kvs.lookup "speed" with
              | none => none
              | some sv =>
                match mapIndex speed_map sv with
                | none => none
                | some stok =>
                  some (seen',
                    clock ++ "    /* " ++ name ++ ": " ++ cm ++ " */\n" ++
                    "    GpioStruct.Pin = GPIO_PIN_" ++ num ++ ";\n" ++ mp ++
                    "    GpioStruct.Pull = " ++ ptok ++ ";\n" ++
                    "    GpioStruct.Speed = " ++ stok ++ ";\n" ++
                    "    HAL_GPIO_Init(GPIO" ++ String.singleton port ++ ", &GpioStruct);\n\n")
      | _ => none
    | _ => none
  | _ => none

/-- The `for pin in self.config["gpio"]["pins"]` loop. -/
def gpio_pins_c (seen : List Char) : List Value → Option (List Char × String)
  | [] => some (seen, "")
  | p :: rest =>
    match gpio_pin_c seen p with
    | none => none
    | some (seen', txt) =>
      match gpio_pins_c seen' rest with
      | none => none
      | some (seenF, more) => some (seenF, txt ++ more)

/-- `_write_gpio_c`: note the direct `self.config["gpio"]["pins"]`
subscripts (`KeyError` when `pins` is absent, unlike the validator's
defaulted `.get`s). -/
def write_gpio_c (c : Value) : Option String :=
  match pyIndex c "gpio" with
  | none => none
  | some g =>
    match pyIndex g "pins" with
    | none => none
    | some pins =>
      match pyElems pins with
      | none => none
      | some es =>
        match gpio_pins_c [] es with
        | none => none
        | some (_, body) =>
          some ("static void init_gpio(void) \x7b\n" ++
            "    GPIO_InitTypeDef GpioStruct = \x7b0\x7d;\n\n" ++
            body ++ "\x7d\n\n")

/-- One UART entity in `_write_uart_c`: disabled instances are skipped
(contribute no text); an enabled one must carry a string `instance`
(`handle_var_name` calls `.lower()` on it) and a `baudrate` and
`stop_bits` to interpolate, and its `parity` (default "none") must be a
`parity_map` key. -/
def write_uart_entity (u : Value) : Option String :=
  match u with
  | .map kvs =>
    if !pyTruthy ((kvs.lookup "enabled").getD .null) then some "" else
    match kvs.lookup "instance" with
    | some (.str s) =>
      let h := handle_var_name "hu" s
      match kvs.lookup "baudrate" with
      | none => none
      | some bd =>
        match mapIndex parity_map ((kvs.lookup "parity").getD (.str "none")) with
        | none => none
        | some ptok =>
          match kvs.lookup "stop_bits" with
          | none => none
          | some sb =>
            some ("UART_HandleTypeDef " ++ h ++ ";\n" ++
              "void init_" ++ s ++ "(void) \x7b\n" ++
              "    " ++ h ++ ".Instance = " ++ s ++ ";\n" ++
              "    " ++ h ++ ".Init.BaudRate = " ++ pyStr bd ++ ";\n" ++
              "    " ++ h ++ ".Init.WordLength = UART_WORDLENGTH_8B;\n" ++
              "    " ++ h ++ ".Init.Parity = " ++ ptok ++ ";\n" ++
              "    " ++ h ++ ".Init.StopBits = UART_STOPBITS_" ++ pyStr sb ++ ";\n" ++
              "    " ++ h ++ ".Init.Mode = UART_MODE_TX_RX;\n" ++
              "    " ++ h ++ ".Init.HwFlowCtl = UART_HWCONTROL_NONE;\n" ++
              "    " ++ h ++ ".Init.OverSampling = UART_OVERSAMPLING_16;\n" ++
              "    if (HAL_UART_Init(&" ++ h ++ ") != HAL_OK) \x7b\n        Error_Handler();\n    \x7d\n" ++
              "\x7d\n\n")
    | _ => none
  | _ => none

/-- `_write_uart_c`: the concatenation of the enabled instances'
function definitions (a category with no enabled instances contributes
the empty string). -/
def write_uart_c (c : Value) : Option String :=
  match readPath2 c "communication" "uart" with
  | none => none
  | some us =>
    match pyElems us with
    | none => none
    | some es =>
      match optMapM write_uart_entity es with
      | none => none
      | some chunks => some (strJoin chunks)

/-- One I2C entity in `_write_i2c_c`. -/
def write_i2c_entity (i : Value) : Option String :=
  match i with
  | .map kvs =>
    if !pyTruthy ((kvs.lookup "enabled").getD .null) then some "" else
    match kvs.lookup "instance" with
    | some (.str s) =>
      let h := handle_var_name "hi" s
      match kvs.lookup "speed" with
      | none => none
      | some sp =>
        some ("I2C_HandleTypeDef " ++ h ++ ";\n" ++
          "void init_" ++ s ++ "(void) \x7b\n" ++
          "    " ++ h ++ ".Instance = " ++ s ++ ";\n" ++
          "    " ++ h ++ ".Init.ClockSpeed = " ++ pyStr sp ++ ";\n" ++
          "    " ++ h ++ ".Init.DutyCycle = I2C_DUTYCYCLE_2;\n" ++
          "    " ++ h ++ ".Init.OwnAddress1 = 0;\n" ++
          "    " ++ h ++ ".Init.AddressingMode = I2C_ADDRESSINGMODE_7BIT;\n" ++
          "    " ++ h ++ ".Init.DualAddressMode = I2C_DUALADDRESS_DISABLE;\n" ++
          "    " ++ h ++ ".Init.OwnAddress2 = 0;\n" ++
          "    " ++ h ++ ".Init.GeneralCallMode = I2C_GENERALCALL_DISABLE;\n" ++
          "    " ++ h ++ ".Init.NoStretchMode = I2C_NOSTRETCH_DISABLE;\n" ++
          "    if (HAL_I2C_Init(&" ++ h ++ ") != HAL_OK) \x7b\n        Error_Handler();\n    \x7d\n" ++
          "\x7d\n\n")
    | _ => none
  | _ => none

/-- `_write_i2c_c`. -/
def write_i2c_c (c : Value) : Option String :=
  match readPath2 c "communication" "i2c" with
  | none => none
  | some is' =>
    match pyElems is' with
    | none => none
    | some es =>
      match optMapM write_i2c_entity es with
      | none => none
      | some chunks => some (strJoin chunks)

/-- One timer entity in `_write_timer_c`: `prescaler` and `period` are
emitted decremented by one (`timer['prescaler'] - 1`; the subtraction
requires an int-like value — booleans coerce, anything else raises
`TypeError`); in PWM mode a comment interpolating `channel` and
`duty_cycle` (direct subscripts) is appended. -/
def write_timer_entity (t : Value) : Option String :=
  match t with
  | .map kvs =>
    if !pyTruthy ((kvs.lookup "enabled").getD .null) then some "" else
    match kvs.lookup "instance" with
    | some (.str s) =>
      let h := handle_var_name "ht" s
      match kvs.lookup "prescaler" with
      | none => none
      | some p =>
        match kvs.lookup "period" with
        | none => none
        | some q =>
          if !pyIsInt p || !pyIsInt q then none
          else
            let pwmPart : Option String :=
              if pyEq ((kvs.lookup "mode").getD .null) (.str "pwm") then
                match kvs.lookup "channel" with
                | none => none
                | some ch =>
                  match kvs.lookup "duty_cycle" with
                  | none => none
                  | some dc =>
                    some ("    // pwm out ch " ++ pyStr ch ++ " duty " ++ pyStr dc ++ "%\n")
              else some ""
            match pwmPart with
            | none => none
            | some pw =>
              some ("TIM_HandleTypeDef " ++ h ++ ";\n" ++
                "void init_" ++ s ++ "(void) \x7b\n" ++
                "    " ++ h ++ ".Instance = " ++ s ++ ";\n" ++
                "    " ++ h ++ ".Init.Prescaler = " ++ toString (pyIntVal p - 1) ++ ";\n" ++
                "    " ++ h ++ ".Init.CounterMode = TIM_COUNTERMODE_UP;\n" ++
                "    " ++ h ++ ".Init.Period = " ++ toString (pyIntVal q - 1) ++ ";\n" ++
                "    " ++ h ++ ".Init.ClockDivision = TIM_CLOCKDIVISION_DIV1;\n" ++
                "    if (HAL_TIM_Base_Init(&" ++ h ++ ") != HAL_OK) \x7b\n        Error_Handler();\n    \x7d\n" ++
                pw ++ "\x7d\n\n")
    | _ => none
  | _ => none

/-- `_write_timer_c`. -/
def write_timer_c (c : Value) : Option String :=
  match pyGetD c "timers" (.list []) with
  | none => none
  | some ts =>
    match pyElems ts with
    | none => none
    | some es =>
      match optMapM write_timer_entity es with
      | none => none
      | some chunks => some (strJoin chunks)

/-- One entity of the aggregator's loops: an enabled instance
contributes one `init_<instance>()` call (direct `['instance']`
subscript), a disabled one nothing. -/
def agg_entity (u : Value) : Option String :=
  match u with
  | .map kvs =>
    if pyTruthy ((kvs.lookup "enabled").getD .null) then
      match kvs.lookup "instance" with
      | none => none
      | some inst => some ("    init_" ++ pyStr inst ++ "();\n")
    else some ""
  | _ => none

/-- The `initialize_peripherals` entry point written at the end of
`generate_c_file`: the unconditional `init_gpio()` call, then each
enabled UART, I2C and timer instance in configuration order. -/
def write_aggregator (c : Value) : Option String :=
  match readPath2 c "communication" "uart" with
  | none => none
  | some us =>
    match pyElems us with
    | none => none
    | some ue =>
      match optMapM agg_entity ue with
      | none => none
      | some uL =>
        match readPath2 c "communication" "i2c" with
        | none => none
        | some is' =>
          match pyElems is' with
          | none => none
          | some ie =>
            match optMapM agg_entity ie with
            | none => none
            | some iL =>
              match pyGetD c "timers" (.list []) with
              | none => none
              | some ts =>
                match pyElems ts with
                | none => none
                | some te =>
                  match optMapM agg_entity te with
                  | none => none
                  | some tL =>
                    some ("void initialize_peripherals(void) \x7b\n" ++
                      "    init_gpio();\n" ++
                      strJoin uL ++ strJoin iL ++ strJoin tL ++ "\x7d\n")

/-- `generate_c_file`: banner naming the board, fixed header include,
the four category writers in order, then the aggregator.  `none` is an
uncaught exception part-way through; the full artifact is then never
completed. -/
def generate_c_file (c : Value) : Option String :=
  match pyGetD c "board" (.map []) with
  | none => none
  | some b =>
    match pyGetD b "name" (.str "unknown_board") with
    | none => none
    | some bn =>
      match write_gpio_c c with
      | none => none
      | some gp =>
        match write_uart_c c with
        | none => none
        | some ua =>
          match write_i2c_c c with
          | none => none
          | some ic =>
            match write_timer_c c with
            | none => none
            | some tm =>
              match write_aggregator c with
              | none => none
              | some agg =>
                some ("/* auto-generated for " ++ pyStr bn ++ " */\n" ++
                  "#include \"stm32f4xx_hal.h\"\n\n" ++
                  gp ++ ua ++ ic ++ tm ++ agg)

/-! ## Concrete configurations used by witnesses and counterexamples -/

/-- A well-formed board section. -/
def board0 : Value :=
  .map [("name", .str "X"), ("mcu", .str "Y"), ("clock_freq", .int 16000000)]

/-- A fully specified GPIO pin (the round-trip pin of the spec's
testable properties). -/
def pin0 : Value :=
  .map [("pin", .str "PA5"), ("direction", .str "output"),
        ("pull", .str "none"), ("speed", .str "medium")]

/-- A configuration that validates cleanly: one pin, no communication
entities, no timers. -/
def cfg0 : Value :=
  .map [("board", board0), ("gpio", .map [("pins", .list [pin0])]),
        ("communication", .map []), ("timers", .list [])]

/-- A configuration whose `gpio` section is present but has no `pins`
key. -/
def cfgNoPins : Value :=
  .map [("board", board0), ("gpio", .map []),
        ("communication", .map []), ("timers", .list [])]

/-- A configuration whose `gpio.pins` key is present with a null
value. -/
def cfgNullPins : Value :=
  .map [("board", board0), ("gpio", .map [("pins", .null)]),
        ("communication", .map []), ("timers", .list [])]

/-- A configuration whose board section carries `name: null` (and the
other two fields). -/
def cfgNullName : Value :=
  .map [("board", .map [("name", .null), ("mcu", .str "m"), ("clock_freq", .int 1)])]

/-- The string pin identifier of a pin entity (empty when absent or not
a string). -/
def pinNameD (kvs : List (String × Value)) : String :=
  match kvs.lookup "pin" with
  | some (.str s) => s
  | _ => ""

/-- A pin entity that passes every per-pin check other than the
duplicate test: a nonempty string identifier, enum-valid direction,
pull and speed, and an absent, null or string `alt_function`. -/
def goodPinB (kvs : List (String × Value)) : Bool :=
  (match kvs.lookup "pin" with
   | some (.str s) => decide (s ≠ "")
   | _ => false) &&
  inStrSet ((kvs.lookup "direction").getD .null) valid_directions &&
  inStrSet ((kvs.lookup "pull").getD .null) valid_pulls &&
  inStrSet ((kvs.lookup "speed").getD .null) valid_speeds &&
  (match (kvs.lookup "alt_function").getD .null with
   | .null => true
   | .str _ => true
   | _ => false)

/-- A configuration holding exactly the given pin entities. -/
def mkGpioCfg (ps : List (List (String × Value))) : Value :=
  .map [("gpio", .map [("pins", .list (ps.map Value.map))])]

/-- A configuration with fields left to default in every category. -/
def cfgSparse : Value :=
  .map [("board", board0),
        ("gpio", .map [("pins", .list [.map [("pin", .str "PB3")]])]),
        ("communication", .map [("uart", .list [.map [("instance", .str "USART2"),
          ("baudrate", .int 115200)]])]),
        ("timers", .list [.map [("instance", .str "TIM3"),
          ("prescaler", .int 16), ("period", .int 1000)]])]

/-- `cfgSparse` after one defaults pass: every optional field filled. -/
def cfgFilled : Value :=
  .map [("board", board0),
        ("gpio", .map [("pins", .list [.map [("pin", .str "PB3"),
          ("pull", .str "none"), ("speed", .str "medium"),
          ("direction", .str "input")]])]),
        ("communication", .map [("uart", .list [.map [("instance", .str "USART2"),
          ("baudrate", .int 115200), ("parity", .str "none"),
          ("stop_bits", .int 1), ("data_bits", .int 8),
          ("enabled", .bool true)]])]),
        ("timers", .list [.map [("instance", .str "TIM3"),
          ("prescaler", .int 16), ("period", .int 1000),
          ("enabled", .bool true), ("mode", .str "timer")]])]

/-! ## Claim C3 -/

/-- C3 (counterexample to the claim as stated): with `gpio.pins` present
but null, the run does not "pass validation with zero errors" — it dies
with a `TypeError` already in `_apply_defaults` (iterating `None`), and
the GPIO validator itself would also raise rather than see an empty
collection. -/
theorem C3_null_pins_crash :
    load_and_validate cfgNullPins = none ∧
    validate_gpio_section cfgNullPins = none := by
  constructor <;> rfl

/-- C3 (amended): there is a configuration that passes validation with
zero errors yet for which code emission does not produce the artifact —
the `gpio` section present without a `pins` key: the validators'
defaulted `.get`s see an empty collection and report nothing, while
`generate_c_file` subscripts `config["gpio"]["pins"]` directly and dies
with a `KeyError`. -/
theorem C3_validated_config_fails_emission :
    load_and_validate cfgNoPins = some (cfgNoPins, []) ∧
    generate_c_file cfgNoPins = none := by
  constructor <;> rfl

/-! ## Claim C2 -/

/-- C2 (counterexample to the claim as stated): the board validator does
not require the fields to be non-null — with `name` present but null it
reports zero errors (`field not in board` tests key presence only). -/
theorem C2_null_name_not_flagged :
    validate_board_section cfgNullName = some [] := by rfl

/-- C2 (amended): the board validator requires each of `name`, `mcu`,
`clock_freq` to be **present** (a present null value is accepted), and
appends exactly one distinct `board <field> required` error for each
missing key, in field order. -/
theorem C2_board_presence_only (kvs bkvs : List (String × Value))
    (hb : kvs.lookup "board" = some (.map bkvs)) :
    validate_board_section (.map kvs) =
      some ((["name", "mcu", "clock_freq"].filter (fun f => !hasKey bkvs f)).map
        (fun f => "board " ++ f ++ " required")) := by
  simp only [validate_board_section, pyGetD, hb, Option.getD_some, contains_check_errs,
    pyContains]
  cases hn : hasKey bkvs "name" <;> cases hm : hasKey bkvs "mcu" <;>
    cases hc : hasKey bkvs "clock_freq" <;> simp [hn, hm, hc]

/-- C2 witness: a board with only `name` draws exactly the `mcu` and
`clock_freq` errors. -/
theorem C2_board_presence_only_witness :
    validate_board_section (.map [("board", .map [("name", .str "b")])]) =
      some ["board mcu required", "board clock_freq required"] :=
  C2_board_presence_only [("board", .map [("name", .str "b")])] [("name", .str "b")] rfl

/-! ## Claim C5 -/

/-- A disabled UART entity (with a truthy string instance) draws no
errors, whatever fields are omitted. -/
theorem uart_disabled_no_errs (kvs : List (String × Value)) (s : String)
    (hi : kvs.lookup "instance" = some (.str s)) (hs : s ≠ "")
    (he : kvs.lookup "enabled" = some (.bool false)) :
    uart_errs (.map kvs) = some [] := by
  simp [uart_errs, hi, he, pyTruthy, pyIsBool, hs]

/-- A disabled I2C entity draws no errors. -/
theorem i2c_disabled_no_errs (kvs : List (String × Value)) (s : String)
    (hi : kvs.lookup "instance" = some (.str s)) (hs : s ≠ "")
    (he : kvs.lookup "enabled" = some (.bool false)) :
    i2c_errs (.map kvs) = some [] := by
  simp [i2c_errs, hi, he, pyTruthy, pyIsBool, hs]

/-- A disabled timer entity draws no errors. -/
theorem timer_disabled_no_errs (kvs : List (String × Value)) (s : String)
    (hi : kvs.lookup "instance" = some (.str s)) (hs : s ≠ "")
    (he : kvs.lookup "enabled" = some (.bool false)) :
    timer_errs (.map kvs) = some [] := by
  simp [timer_errs, hi, he, pyTruthy, pyIsBool, hs]

/-- For an enabled UART entity the invalid-baudrate error, naming the
instance, appears exactly when the baudrate value is neither a positive
integer nor the boolean `true` (which Python's `isinstance(_, int)`
accepts as 1). -/
theorem uart_enabled_baudrate_iff (kvs : List (String × Value)) (s : String)
    (hi : kvs.lookup "instance" = some (.str s)) (hs : s ≠ "")
    (he : kvs.lookup "enabled" = some (.bool true)) :
    uart_errs (.map kvs) = some
      (if (match (kvs.lookup "baudrate").getD .null with
           | .int n => decide (0 < n)
           | .bool b => b
           | _ => false) then [] else [s ++ " invalid baudrate"]) := by
  simp only [uart_errs, hi, he, Option.getD_some]
  cases hbd : (kvs.lookup "baudrate").getD .null with
  | null => simp [pyTruthy, pyIsBool, pyIsInt, pyIntVal, pyStr, hs]
  | bool b => cases b <;> simp [pyTruthy, pyIsBool, pyIsInt, pyIntVal, pyStr, hs]
  | int n =>
    simp only [pyTruthy, pyIsBool, pyIsInt, pyIntVal, pyStr, hs, Bool.not_true,
      Bool.false_or, Bool.true_and]
    rcases lt_or_le 0 n with h | h
    · simp [h, not_le.mpr h, hs]
    · simp [not_lt.mpr h, hs]
  | str t => simp [pyTruthy, pyIsBool, pyIsInt, pyIntVal, pyStr, hs]
  | list xs => simp [pyTruthy, pyIsBool, pyIsInt, pyIntVal, pyStr, hs]
  | map m => simp [pyTruthy, pyIsBool, pyIsInt, pyIntVal, pyStr, hs]

/-- C5 (counterexample to the claim as stated): an enabled UART whose
`baudrate` is the boolean `true` — not a positive integer — draws no
invalid-baudrate error: `isinstance(True, int)` holds in Python and
`True` compares as 1. -/
theorem C5_bool_baudrate_accepted :
    uart_errs (.map [("instance", .str "u1"), ("enabled", .bool true),
      ("baudrate", .bool true)]) = some [] := by rfl

/-- C5 (amended): entities with `enabled = false` (UART, I2C, timer) are
exempt from every "required when enabled" check — omitting baudrate,
speed, prescaler, period draws no error; an enabled UART entity draws a
baudrate error naming the instance exactly when its baudrate value is
neither a positive integer nor the boolean `true` (booleans pass the
`isinstance(_, int)` test, `True` counting as 1; missing, null, `false`,
non-positive and non-integer values are all rejected). -/
theorem C5_disabled_exempt_enabled_baudrate :
    (∀ (kvs : List (String × Value)) (s : String),
      kvs.lookup "instance" = some (.str s) → s ≠ "" →
      kvs.lookup "enabled" = some (.bool false) →
      uart_errs (.map kvs) = some []) ∧
    (∀ (kvs : List (String × Value)) (s : String),
      kvs.lookup "instance" = some (.str s) → s ≠ "" →
      kvs.lookup "enabled" = some (.bool false) →
      i2c_errs (.map kvs) = some []) ∧
    (∀ (kvs : List (String × Value)) (s : String),
      kvs.lookup "instance" = some (.str s) → s ≠ "" →
      kvs.lookup "enabled" = some (.bool false) →
      timer_errs (.map kvs) = some []) ∧
    (∀ (kvs : List (String × Value)) (s : String),
      kvs.lookup "instance" = some (.str s) → s ≠ "" →
      kvs.lookup "enabled" = some (.bool true) →
      uart_errs (.map kvs) = some
        (if (match (kvs.lookup "baudrate").getD .null with
             | .int n => decide (0 < n)
             | .bool b => b
             | _ => false) then [] else [s ++ " invalid baudrate"])) :=
  ⟨uart_disabled_no_errs, i2c_disabled_no_errs, timer_disabled_no_errs,
   uart_enabled_baudrate_iff⟩

/-- C5 witness: concrete disabled entities missing their
required-when-enabled fields validate clean; a concrete enabled UART
missing `baudrate` draws exactly the error naming it. -/
theorem C5_disabled_exempt_enabled_baudrate_witness :
    uart_errs (.map [("instance", .str "u1"), ("enabled", .bool false)]) = some [] ∧
    i2c_errs (.map [("instance", .str "i1"), ("enabled", .bool false)]) = some [] ∧
    timer_errs (.map [("instance", .str "t1"), ("enabled", .bool false)]) = some [] ∧
    uart_errs (.map [("instance", .str "u1"), ("enabled", .bool true)]) =
      some ["u1 invalid baudrate"] :=
  ⟨C5_disabled_exempt_enabled_baudrate.1 _ "u1" rfl (by decide) rfl,
   C5_disabled_exempt_enabled_baudrate.2.1 _ "i1" rfl (by decide) rfl,
   C5_disabled_exempt_enabled_baudrate.2.2.1 _ "t1" rfl (by decide) rfl,
   C5_disabled_exempt_enabled_baudrate.2.2.2 _ "u1" rfl (by decide) rfl⟩

/-! ## Claim C7 -/

/-- Appending to a string is injective on the right, so two validator
messages sharing their instance prefix but differing in their fixed
suffix are distinct strings. -/
theorem str_append_left_ne (s a b : String) (h : a ≠ b) : s ++ a ≠ s ++ b := by
  intro hc
  apply h
  have hd := congrArg String.data hc
  simp only [String.data_append] at hd
  exact String.ext (List.append_cancel_left hd)

/-- C7: an enabled timer entity in PWM mode draws exactly one combined
`pwm needs duty_cycle and channel` error when either (or both) of
`duty_cycle` and `channel` is absent, and none when both are present —
whatever its other fields hold. -/
theorem C7_pwm_combined_error (kvs : List (String × Value)) (s : String)
    (hi : kvs.lookup "instance" = some (.str s)) (hs : s ≠ "")
    (he : kvs.lookup "enabled" = some (.bool true))
    (hm : kvs.lookup "mode" = some (.str "pwm")) :
    (timer_errs (.map kvs)).map
        (List.count (s ++ " pwm needs duty_cycle and channel")) =
      some (if hasKey kvs "duty_cycle" && hasKey kvs "channel" then 0 else 1) := by
  simp only [timer_errs, hi, he, hm, Option.getD_some, Option.map_some']
  simp only [pyTruthy, pyIsBool, pyEq, hs]
  have hne1 : (s ++ " invalid prescaler") ≠ (s ++ " pwm needs duty_cycle and channel") :=
    str_append_left_ne _ _ _ (by decide)
  have hne2 : (s ++ " invalid period") ≠ (s ++ " pwm needs duty_cycle and channel") :=
    str_append_left_ne _ _ _ (by decide)
  cases hdc : hasKey kvs "duty_cycle" <;> cases hch : hasKey kvs "channel" <;>
    split_ifs <;>
    simp_all [List.count_append, List.count_cons, pyStr, List.count_singleton]

/-- C7 witness: a PWM timer with `channel` but no `duty_cycle` draws the
combined error exactly once. -/
theorem C7_pwm_combined_error_witness :
    (timer_errs (.map [("instance", .str "t1"), ("enabled", .bool true),
        ("mode", .str "pwm"), ("prescaler", .int 1), ("period", .int 2),
        ("channel", .int 1)])).map
        (List.count ("t1" ++ " pwm needs duty_cycle and channel")) = some 1 :=
  C7_pwm_combined_error _ "t1" rfl (by decide) rfl rfl

/-! ## Claim C9 -/

/-- C9: for every enabled timer entity with integer `prescaler` p and
`period` q, the emitted initialization writes `Init.Prescaler = p - 1`
and `Init.Period = q - 1` (exact integer arithmetic), the rest of the
definition being fixed text around them. -/
theorem C9_timer_minus_one (kvs : List (String × Value)) (s : String) (p q : Int)
    (he : pyTruthy ((kvs.lookup "enabled").getD .null) = true)
    (hi : kvs.lookup "instance" = some (.str s))
    (hp : kvs.lookup "prescaler" = some (.int p))
    (hq : kvs.lookup "period" = some (.int q))
    (hpwm : pyEq ((kvs.lookup "mode").getD .null) (.str "pwm") = true →
      (kvs.lookup "channel").isSome = true ∧ (kvs.lookup "duty_cycle").isSome = true) :
    write_timer_entity (.map kvs) = some (
      "TIM_HandleTypeDef " ++ handle_var_name "ht" s ++ ";\n" ++
      "void init_" ++ s ++ "(void) \x7b\n" ++
      "    " ++ handle_var_name "ht" s ++ ".Instance = " ++ s ++ ";\n" ++
      "    " ++ handle_var_name "ht" s ++ ".Init.Prescaler = " ++ toString (p - 1) ++ ";\n" ++
      "    " ++ handle_var_name "ht" s ++ ".Init.CounterMode = TIM_COUNTERMODE_UP;\n" ++
      "    " ++ handle_var_name "ht" s ++ ".Init.Period = " ++ toString (q - 1) ++ ";\n" ++
      "    " ++ handle_var_name "ht" s ++ ".Init.ClockDivision = TIM_CLOCKDIVISION_DIV1;\n" ++
      "    if (HAL_TIM_Base_Init(&" ++ handle_var_name "ht" s ++ ") != HAL_OK) \x7b\n        Error_Handler();\n    \x7d\n" ++
      (if pyEq ((kvs.lookup "mode").getD .null) (.str "pwm") then
        "    // pwm out ch " ++ pyStr ((kvs.lookup "channel").getD .null) ++
        " duty " ++ pyStr ((kvs.lookup "duty_cycle").getD .null) ++ "%\n"
       else "") ++ "\x7d\n\n") := by
  simp only [write_timer_entity, hi, hp, hq, he, Bool.not_true, Bool.false_eq_true,
    if_false, pyIsInt, Bool.not_false, Bool.false_or, Bool.or_self]
  cases hc : pyEq ((kvs.lookup "mode").getD .null) (.str "pwm") with
  | false => simp [hc, pyIntVal]
  | true =>
    obtain ⟨h1, h2⟩ := hpwm hc
    rcases Option.isSome_iff_exists.mp h1 with ⟨ch, hch⟩
    rcases Option.isSome_iff_exists.mp h2 with ⟨dc, hdc⟩
    simp [hc, hch, hdc, pyIntVal]

/-- C9 witness: prescaler 16 and period 1000 are emitted as 15 and
999. -/
theorem C9_timer_minus_one_witness :
    write_timer_entity (.map [("instance", .str "TIM3"), ("enabled", .bool true),
      ("prescaler", .int 16), ("period", .int 1000)]) = some
      ("TIM_HandleTypeDef htim3;\n" ++
       "void init_TIM3(void) \x7b\n" ++
       "    htim3.Instance = TIM3;\n" ++
       "    htim3.Init.Prescaler = 15;\n" ++
       "    htim3.Init.CounterMode = TIM_COUNTERMODE_UP;\n" ++
       "    htim3.Init.Period = 999;\n" ++
       "    htim3.Init.ClockDivision = TIM_CLOCKDIVISION_DIV1;\n" ++
       "    if (HAL_TIM_Base_Init(&htim3) != HAL_OK) \x7b\n        Error_Handler();\n    \x7d\n" ++
       "\x7d\n\n") := by
  have h := C9_timer_minus_one
    [("instance", .str "TIM3"), ("enabled", .bool true),
     ("prescaler", .int 16), ("period", .int 1000)] "TIM3" 16 1000
    (by decide) rfl rfl rfl (by decide)
  exact h.trans (by decide)

/-! ## Claims C8 and C10: per-pin GPIO emission -/

/-- Structure of one pin's emitted text (helper shared by the
mode-selection and null-alt-function claims): clock enable on first
sight of the port, comment, pin line, mode selection (alt_function
presence forcing AF mode, otherwise the direction three-way with
push-pull as the default branch), then the pull, speed and init lines in
fixed order. -/
theorem gpio_pin_c_shape (kvs : List (String × Value)) (seen : List Char)
    (s : String) (c0 c1 : Char) (rest : List Char)
    (hn : kvs.lookup "pin" = some (.str s)) (hd : s.data = c0 :: c1 :: rest)
    (pl pt : String) (hpl : kvs.lookup "pull" = some (.str pl))
    (hpt : pull_map.lookup pl = some pt)
    (sp st : String) (hsp : kvs.lookup "speed" = some (.str sp))
    (hst : speed_map.lookup sp = some st)
    (hdir : hasKey kvs "alt_function" = true ∨ (kvs.lookup "direction").isSome = true) :
    gpio_pin_c seen (.map kvs) = some
      ((if seen.contains c1 then seen else seen ++ [c1]),
       (if seen.contains c1 then "" else
         "    __HAL_RCC_GPIO" ++ String.singleton c1 ++ "_CLK_ENABLE();\n") ++
       "    /* " ++ s ++ ": " ++ pyStr ((kvs.lookup "comment").getD (.str "")) ++ " */\n" ++
       "    GpioStruct.Pin = GPIO_PIN_" ++ String.mk rest ++ ";\n" ++
       (if hasKey kvs "alt_function" then
          "    GpioStruct.Mode = GPIO_MODE_AF_PP;\n" ++
          "    GpioStruct.Alternate = " ++
            pyStr ((kvs.lookup "alt_function").getD .null) ++ ";\n"
        else if pyEq ((kvs.lookup "direction").getD .null) (.str "input") then
          "    GpioStruct.Mode = GPIO_MODE_INPUT;\n"
        else if pyEq ((kvs.lookup "direction").getD .null) (.str "output_open_drain") then
          "    GpioStruct.Mode = GPIO_MODE_OUTPUT_OD;\n"
        else "    GpioStruct.Mode = GPIO_MODE_OUTPUT_PP;\n") ++
       "    GpioStruct.Pull = " ++ pt ++ ";\n" ++
       "    GpioStruct.Speed = " ++ st ++ ";\n" ++
       "    HAL_GPIO_Init(GPIO" ++ String.singleton c1 ++ ", &GpioStruct);\n\n") := by
  have hdl : s.toList = c0 :: c1 :: rest := hd
  simp only [gpio_pin_c, hn, hdl, mapIndex, hpl, hsp, hpt, hst]
  cases hak : hasKey kvs "alt_function" with
  | true => simp [hak]
  | false =>
    rcases hdir with h | h
    · rw [hak] at h; exact absurd h (by decide)
    · rcases Option.isSome_iff_exists.mp h with ⟨d, hdv⟩
      simp only [hak, Bool.false_eq_true, if_false, hdv, Option.getD_some]

/-- C8: for every emitted pin, a present `alt_function` key forces
AF-mode and attaches the rendered selector, overriding `direction`
(which is then not even read); otherwise direction `input` maps to
`GPIO_MODE_INPUT`, `output_open_drain` to `GPIO_MODE_OUTPUT_OD`, and any
other value (the default branch) to `GPIO_MODE_OUTPUT_PP`; the pull and
speed tokens come from the fixed `pull_map`/`speed_map` tables and the
mode, pull, speed lines stand in that fixed order. -/
theorem C8_gpio_mode_selection (kvs : List (String × Value)) (seen : List Char)
    (s : String) (c0 c1 : Char) (rest : List Char)
    (hn : kvs.lookup "pin" = some (.str s)) (hd : s.data = c0 :: c1 :: rest)
    (pl pt : String) (hpl : kvs.lookup "pull" = some (.str pl))
    (hpt : pull_map.lookup pl = some pt)
    (sp st : String) (hsp : kvs.lookup "speed" = some (.str sp))
    (hst : speed_map.lookup sp = some st)
    (hdir : hasKey kvs "alt_function" = true ∨ (kvs.lookup "direction").isSome = true) :
    gpio_pin_c seen (.map kvs) = some
      ((if seen.contains c1 then seen else seen ++ [c1]),
       (if seen.contains c1 then "" else
         "    __HAL_RCC_GPIO" ++ String.singleton c1 ++ "_CLK_ENABLE();\n") ++
       "    /* " ++ s ++ ": " ++ pyStr ((kvs.lookup "comment").getD (.str "")) ++ " */\n" ++
       "    GpioStruct.Pin = GPIO_PIN_" ++ String.mk rest ++ ";\n" ++
       (if hasKey kvs "alt_function" then
          "    GpioStruct.Mode = GPIO_MODE_AF_PP;\n" ++
          "    GpioStruct.Alternate = " ++
            pyStr ((kvs.lookup "alt_function").getD .null) ++ ";\n"
        else if pyEq ((kvs.lookup "direction").getD .null) (.str "input") then
          "    GpioStruct.Mode = GPIO_MODE_INPUT;\n"
        else if pyEq ((kvs.lookup "direction").getD .null) (.str "output_open_drain") then
          "    GpioStruct.Mode = GPIO_MODE_OUTPUT_OD;\n"
        else "    GpioStruct.Mode = GPIO_MODE_OUTPUT_PP;\n") ++
       "    GpioStruct.Pull = " ++ pt ++ ";\n" ++
       "    GpioStruct.Speed = " ++ st ++ ";\n" ++
       "    HAL_GPIO_Init(GPIO" ++ String.singleton c1 ++ ", &GpioStruct);\n\n") :=
  gpio_pin_c_shape kvs seen s c0 c1 rest hn hd pl pt hpl hpt sp st hsp hst hdir

/-- C8 witness: the round-trip pin (`PA5`, direction output, pull none,
speed medium) emits the push-pull mode token, the no-pull token and the
medium-speed token, in that fixed order. -/
theorem C8_gpio_mode_selection_witness :
    gpio_pin_c [] pin0 = some (['A'],
      "    __HAL_RCC_GPIOA_CLK_ENABLE();\n" ++
      "    /* PA5:  */\n" ++
      "    GpioStruct.Pin = GPIO_PIN_5;\n" ++
      "    GpioStruct.Mode = GPIO_MODE_OUTPUT_PP;\n" ++
      "    GpioStruct.Pull = GPIO_NOPULL;\n" ++
      "    GpioStruct.Speed = GPIO_SPEED_FREQ_MEDIUM;\n" ++
      "    HAL_GPIO_Init(GPIOA, &GpioStruct);\n\n") := by
  have h := C8_gpio_mode_selection
    [("pin", .str "PA5"), ("direction", .str "output"),
     ("pull", .str "none"), ("speed", .str "medium")]
    [] "PA5" 'P' 'A' ['5'] rfl rfl "none" "GPIO_NOPULL" rfl rfl
    "medium" "GPIO_SPEED_FREQ_MEDIUM" rfl rfl (Or.inr rfl)
  exact h.trans (by decide)

/-- A message distinct from a candidate is not in the candidate's
conditional singleton. -/
theorem not_mem_opt_single (c : Bool) (a m : String) (h : m ≠ a) :
    m ∉ (if c then [a] else []) := by
  split <;> simp [h]

/-- Same, for the `if ok then [] else [message]` shape. -/
theorem not_mem_opt_single' (c : Bool) (a m : String) (h : m ≠ a) :
    m ∉ (if c then [] else [a]) := by
  split <;> simp [h]

/-- C10: for every GPIO pin whose `alt_function` key is present with a
null value, the validator (which compares `pin.get("alt_function")` —
null — against `is not None`) emits no alt_function error for that pin,
yet the emitter (which tests `"alt_function" in pin` — true) selects
alternate-function mode and renders the null selector as `None` in the
`GpioStruct.Alternate` line: validator acceptance does not guarantee a
non-null selector. -/
theorem C10_null_alt_function (kvs : List (String × Value)) (s : String)
    (hn : kvs.lookup "pin" = some (.str s)) (hs : s ≠ "")
    (ha : kvs.lookup "alt_function" = some .null) :
    (∀ (idx : Nat) (seen seen' : List Value) (errs : List String),
      gpio_pin_errs idx seen (.map kvs) = some (seen', errs) →
      (s ++ " alt_function must be a string (STM32 macro)") ∉ errs) ∧
    (∀ (seen : List Char) (r : List Char × String),
      gpio_pin_c seen (.map kvs) = some r →
      ∃ pre post, r.2 = pre ++
        ("    GpioStruct.Mode = GPIO_MODE_AF_PP;\n" ++
         "    GpioStruct.Alternate = None;\n") ++ post) := by
  constructor
  · intro idx seen seen' errs h
    simp only [gpio_pin_errs, hn, ha, Option.getD_some, pyTruthy, pyUnhashable, hs] at h
    rw [if_neg (by simp [hs])] at h
    rw [if_neg (by simp)] at h
    split at h
    · exact Option.noConfusion h
    · rw [Option.some_inj, Prod.mk.injEq] at h
      obtain ⟨hseen, herrs⟩ := h
      subst herrs
      intro hmem
      simp only [List.append_nil, List.mem_append] at hmem
      have hd : (s ++ " alt_function must be a string (STM32 macro)") ≠
          "duplicate pin " ++ pyStr (.str s) := by
        intro hc
        have hlen := congrArg String.length hc
        simp [String.length_append, pyStr] at hlen
        have hne : (" alt_function must be a string (STM32 macro)" : String).length ≠
            ("duplicate pin " : String).length := by decide
        omega
      rcases hmem with ((h1 | h2) | h3) | h4
      · exact not_mem_opt_single _ _ _ hd h1
      · refine not_mem_opt_single' _ _ _ ?_ h2
        show s ++ _ ≠ pyStr (.str s) ++ _ ++ _
        rw [String.append_assoc]
        exact str_append_left_ne _ _ _ (by decide)
      · refine not_mem_opt_single' _ _ _ ?_ h3
        show s ++ _ ≠ pyStr (.str s) ++ _ ++ _
        rw [String.append_assoc]
        exact str_append_left_ne _ _ _ (by decide)
      · refine not_mem_opt_single' _ _ _ ?_ h4
        show s ++ _ ≠ pyStr (.str s) ++ _ ++ _
        rw [String.append_assoc]
        exact str_append_left_ne _ _ _ (by decide)
  · intro seen r h
    have hak : hasKey kvs "alt_function" = true := by simp [hasKey, ha]
    rcases hsd : s.toList with _ | ⟨c0, tl⟩
    · simp only [gpio_pin_c, hn, hak, ha, hsd] at h
      exact Option.noConfusion h
    · rcases htl : tl with _ | ⟨c1, rest⟩
      · simp only [gpio_pin_c, hn, hak, ha, hsd, htl] at h
        exact Option.noConfusion h
      · rw [htl] at hsd
        simp only [gpio_pin_c, hn, hak, ha, hsd, if_true, Option.getD_some] at h
        cases hpv : List.lookup "pull" kvs with
        | none => simp only [hpv] at h; exact Option.noConfusion h
        | some pv =>
          simp only [hpv] at h
          cases hpt : mapIndex pull_map pv with
          | none => simp only [hpt] at h; exact Option.noConfusion h
          | some ptok =>
            simp only [hpt] at h
            cases hsv : List.lookup "speed" kvs with
            | none => simp only [hsv] at h; exact Option.noConfusion h
            | some sv =>
              simp only [hsv] at h
              cases hst : mapIndex speed_map sv with
              | none => simp only [hst] at h; exact Option.noConfusion h
              | some stok =>
                simp only [hst] at h
                cases h
                refine ⟨(if seen.contains c1 then "" else
                    "    __HAL_RCC_GPIO" ++ String.singleton c1 ++ "_CLK_ENABLE();\n") ++
                  "    /* " ++ s ++ ": " ++
                  pyStr ((List.lookup "comment" kvs).getD (Value.str "")) ++ " */\n" ++
                  "    GpioStruct.Pin = GPIO_PIN_" ++ String.mk rest ++ ";\n",
                  "    GpioStruct.Pull = " ++ ptok ++ ";\n" ++
                  "    GpioStruct.Speed = " ++ stok ++ ";\n" ++
                  "    HAL_GPIO_Init(GPIO" ++ String.singleton c1 ++ ", &GpioStruct);\n\n", ?_⟩
                simp [← String.append_assoc, pyStr]

/-- C10 witness: the concrete pin `PA5` with `alt_function: null` and
otherwise valid fields draws zero validation errors, and its emitted
text carries `GpioStruct.Alternate = None`. -/
theorem C10_null_alt_function_witness :
    ("PA5" ++ " alt_function must be a string (STM32 macro)") ∉ ([] : List String) ∧
    (∃ pre post,
      ("    __HAL_RCC_GPIOA_CLK_ENABLE();\n" ++
       "    /* PA5:  */\n" ++
       "    GpioStruct.Pin = GPIO_PIN_5;\n" ++
       "    GpioStruct.Mode = GPIO_MODE_AF_PP;\n" ++
       "    GpioStruct.Alternate = None;\n" ++
       "    GpioStruct.Pull = GPIO_NOPULL;\n" ++
       "    GpioStruct.Speed = GPIO_SPEED_FREQ_MEDIUM;\n" ++
       "    HAL_GPIO_Init(GPIOA, &GpioStruct);\n\n") = pre ++
        ("    GpioStruct.Mode = GPIO_MODE_AF_PP;\n" ++
         "    GpioStruct.Alternate = None;\n") ++ post) := by
  have h := C10_null_alt_function
    [("pin", .str "PA5"), ("direction", .str "output"), ("pull", .str "none"),
     ("speed", .str "medium"), ("alt_function", .null)]
    "PA5" rfl (by decide) rfl
  refine ⟨h.1 0 [] [.str "PA5"] [] rfl, ?_⟩
  have h2 := h.2 [] (['A'],
    "    __HAL_RCC_GPIOA_CLK_ENABLE();\n" ++
    "    /* PA5:  */\n" ++
    "    GpioStruct.Pin = GPIO_PIN_5;\n" ++
    "    GpioStruct.Mode = GPIO_MODE_AF_PP;\n" ++
    "    GpioStruct.Alternate = None;\n" ++
    "    GpioStruct.Pull = GPIO_NOPULL;\n" ++
    "    GpioStruct.Speed = GPIO_SPEED_FREQ_MEDIUM;\n" ++
    "    HAL_GPIO_Init(GPIOA, &GpioStruct);\n\n") (by decide)
  exact h2

/-! ## Claim C4 -/

/-- Membership of a string in the validator's `seen` set of string
identifiers is plain string membership. -/
theorem any_pyEq_strs (ns : List String) (m : String) :
    ((ns.map Value.str).any (fun x => pyEq (.str m) x)) = decide (m ∈ ns) := by
  induction ns with
  | nil => rfl
  | cons a rest ih =>
    simp only [List.map_cons, List.any_cons, ih]
    by_cases hma : m = a <;> simp [pyEq, hma]

/-- A value accepted by an enum set-membership test is a string of the
set. -/
theorem inStrSet_str (v : Value) (set : List String) (h : inStrSet v set = true) :
    ∃ t, v = .str t ∧ t ∈ set := by
  cases v <;> simp [inStrSet] at h ⊢
  exact h

/-- A good pin's only possible error is the duplicate error: flagged
(and the `seen` set left unchanged) exactly when its identifier was
already seen, silent (and the identifier added) otherwise. -/
theorem gpio_pin_errs_clean (kvs : List (String × Value)) (idx : Nat) (seen : List Value)
    (hg : goodPinB kvs = true) :
    gpio_pin_errs idx seen (.map kvs) = some
      ((if seen.any (fun x => pyEq (.str (pinNameD kvs)) x) then seen
        else seen ++ [.str (pinNameD kvs)]),
       (if seen.any (fun x => pyEq (.str (pinNameD kvs)) x) then
         ["duplicate pin " ++ pinNameD kvs] else [])) := by
  unfold goodPinB at hg
  cases hn : kvs.lookup "pin" with
  | none => rw [hn] at hg; simp at hg
  | some v =>
    rw [hn] at hg
    cases v with
    | str s =>
      simp only [Bool.and_eq_true, decide_eq_true_eq] at hg
      obtain ⟨⟨⟨⟨hs, hdv⟩, hpv⟩, hsv⟩, hav⟩ := hg
      have hname : pinNameD kvs = s := by simp [pinNameD, hn]
      obtain ⟨d, hdeq, _⟩ := inStrSet_str _ _ hdv
      obtain ⟨pl, hpeq, _⟩ := inStrSet_str _ _ hpv
      obtain ⟨sp, hseq, _⟩ := inStrSet_str _ _ hsv
      rw [hdeq] at hdv
      rw [hpeq] at hpv
      rw [hseq] at hsv
      simp only [gpio_pin_errs, hn, Option.getD_some, hname]
      rw [if_neg (by simp [pyTruthy, hs])]
      rw [if_neg (by simp [pyUnhashable])]
      rw [hdeq, hpeq, hseq]
      rw [if_neg (by simp [pyUnhashable])]
      rw [if_pos hdv, if_pos hpv, if_pos hsv]
      cases havv : (kvs.lookup "alt_function").getD .null with
      | null => simp [pyStr]
      | str a => simp [pyStr]
      | bool b => rw [havv] at hav; simp at hav
      | int n => rw [havv] at hav; simp at hav
      | list xs => rw [havv] at hav; simp at hav
      | map m => rw [havv] at hav; simp at hav
    | _ => simp at hg

/-- The pin loop over a concatenation runs the two halves in sequence,
threading the `seen` set and concatenating the errors. -/
theorem gpio_scan_append (xs ys : List Value) (idx : Nat) (seen : List Value) :
    gpio_scan idx seen (xs ++ ys) =
      match gpio_scan idx seen xs with
      | none => none
      | some (s1, e1) =>
        match gpio_scan (idx + xs.length) s1 ys with
        | none => none
        | some (s2, e2) => some (s2, e1 ++ e2) := by
  induction xs generalizing idx seen with
  | nil =>
    simp only [List.nil_append, gpio_scan, List.length_nil, Nat.add_zero]
    cases gpio_scan idx seen ys with
    | none => rfl
    | some r => cases r; rfl
  | cons p rest ih =>
    simp only [List.cons_append, gpio_scan, List.length_cons]
    cases gpio_pin_errs idx seen p with
    | none => rfl
    | some pr =>
      obtain ⟨seen', errs⟩ := pr
      dsimp only
      simp only [List.append_eq]
      rw [ih]
      have hlen : idx + (rest.length + 1) = idx + 1 + rest.length := by omega
      rw [hlen]
      cases gpio_scan (idx + 1) seen' rest with
      | none => rfl
      | some r1 =>
        obtain ⟨s1, e1⟩ := r1
        dsimp only
        cases gpio_scan (idx + 1 + rest.length) s1 ys with
        | none => rfl
        | some r2 =>
          obtain ⟨s2, e2⟩ := r2
          dsimp only
          simp [List.append_assoc]

/-- A block of good pins with fresh, pairwise-distinct identifiers
produces no errors and appends its identifiers to `seen`. -/
theorem gpio_scan_clean (ps : List (List (String × Value))) (idx : Nat) (seen : List Value)
    (hg : ∀ kvs ∈ ps, goodPinB kvs = true)
    (hfresh : ∀ kvs ∈ ps, (seen.any fun x => pyEq (.str (pinNameD kvs)) x) = false)
    (hnd : (ps.map pinNameD).Nodup) :
    gpio_scan idx seen (ps.map Value.map) =
      some (seen ++ (ps.map pinNameD).map Value.str, []) := by
  induction ps generalizing idx seen with
  | nil => simp [gpio_scan]
  | cons kvs rest ih =>
    simp only [List.map_cons, gpio_scan]
    rw [gpio_pin_errs_clean kvs idx seen (hg kvs (by simp))]
    rw [if_neg (by simp [hfresh kvs (by simp)])]
    rw [if_neg (by simp [hfresh kvs (by simp)])]
    dsimp only
    rw [List.map_cons] at hnd
    have hhead := (List.nodup_cons.mp hnd).1
    have htail := (List.nodup_cons.mp hnd).2
    have hfr : ∀ k ∈ rest,
        ((seen ++ [Value.str (pinNameD kvs)]).any fun x => pyEq (.str (pinNameD k)) x) = false := by
      intro k hk
      simp only [List.any_append, hfresh k (by simp [hk]), List.any_cons, List.any_nil,
        Bool.false_or, Bool.or_false]
      have hne : pinNameD k ≠ pinNameD kvs :=
        fun hc => hhead (hc ▸ List.mem_map_of_mem pinNameD hk)
      simp [pyEq, hne]
    have ihx := ih (idx + 1) (seen ++ [.str (pinNameD kvs)])
      (fun k hk => hg k (by simp [hk])) hfr htail
    rw [ihx]
    simp

/-- `_validate_gpio_section` on a synthetic configuration is the scan of
its pin list. -/
theorem validate_gpio_mk (ps : List (List (String × Value))) :
    validate_gpio_section (mkGpioCfg ps) =
      match gpio_scan 0 [] (ps.map Value.map) with
      | none => none
      | some (_, errs) => some errs := rfl

/-- C4: in a pin list whose entities pass the per-pin field checks and
in which exactly two pins (at positions `|P|` and `|P|+1+|Q|`) share the
identifier `n`, with no other collision, validation produces exactly the
one error `duplicate pin n`; and the prefix that ends just before the
second occurrence validates with zero errors, so the error is attributed
to the second occurrence, not the first. -/
theorem C4_duplicate_pin_single_error
    (P Q R : List (List (String × Value))) (p q : List (String × Value)) (n : String)
    (hgood : ∀ kvs ∈ P ++ [p] ++ Q ++ [q] ++ R, goodPinB kvs = true)
    (hpn : pinNameD p = n) (hqn : pinNameD q = n)
    (hnd : ((P ++ Q ++ R).map pinNameD).Nodup)
    (hnotin : n ∉ (P ++ Q ++ R).map pinNameD) :
    validate_gpio_section (mkGpioCfg (P ++ [p] ++ Q ++ [q] ++ R)) =
      some ["duplicate pin " ++ n] ∧
    validate_gpio_section (mkGpioCfg (P ++ [p] ++ Q)) = some [] := by
  simp only [List.map_append] at hnd hnotin
  rw [List.nodup_append] at hnd
  obtain ⟨hPQnd, hRnd, hdisj1⟩ := hnd
  rw [List.nodup_append] at hPQnd
  obtain ⟨hPnd, hQnd, hdisjPQ⟩ := hPQnd
  simp only [List.mem_append, not_or] at hnotin
  obtain ⟨⟨hnP, hnQ⟩, hnR⟩ := hnotin
  -- names of the prefix block P ++ [p] ++ Q are distinct
  have hLnd : ((P ++ [p] ++ Q).map pinNameD).Nodup := by
    simp only [List.map_append, List.map_cons, List.map_nil, hpn]
    rw [List.nodup_append, List.nodup_append]
    refine ⟨⟨hPnd, List.nodup_singleton n, ?_⟩, hQnd, ?_⟩
    · intro a ha hb
      simp only [List.mem_singleton] at hb
      exact hnP (hb ▸ ha)
    · intro a ha hb
      rcases List.mem_append.mp ha with h | h
      · exact hdisjPQ h hb
      · simp only [List.mem_singleton] at h
        exact hnQ (h ▸ hb)
  -- the clean scan over the prefix block
  have h2 : gpio_scan 0 [] ((P ++ [p] ++ Q).map Value.map) =
      some ([] ++ ((P ++ [p] ++ Q).map pinNameD).map Value.str, []) :=
    gpio_scan_clean _ 0 []
      (fun k hk => hgood k (by simp only [List.mem_append] at hk ⊢; tauto))
      (fun k _ => rfl) hLnd
  constructor
  · rw [validate_gpio_mk]
    rw [show ((P ++ [p] ++ Q ++ [q] ++ R).map Value.map) =
        ((P ++ [p] ++ Q).map Value.map) ++ (([q] ++ R).map Value.map) by
      simp [List.map_append, List.append_assoc]]
    rw [gpio_scan_append, h2]
    dsimp only
    rw [show (List.map Value.map ([q] ++ R)) = [Value.map q] ++ List.map Value.map R from
      by simp]
    rw [gpio_scan_append]
    set seen1 : List Value := [] ++ ((P ++ [p] ++ Q).map pinNameD).map Value.str with hseen1
    have hdup : (seen1.any fun x => pyEq (.str (pinNameD q)) x) = true := by
      rw [hseen1]
      simp only [List.nil_append, any_pyEq_strs, hqn]
      simp only [List.mem_append, decide_eq_true_eq]
      simp only [List.map_append, List.map_cons, List.map_nil, List.mem_append,
        List.mem_singleton]
      exact Or.inl (Or.inr hpn.symm)
    have hq1 : ∀ idx, gpio_scan idx seen1 [Value.map q] =
        some (seen1, ["duplicate pin " ++ n]) := by
      intro idx
      simp only [gpio_scan]
      rw [gpio_pin_errs_clean q _ _ (hgood q (by simp only [List.mem_append] at *; tauto))]
      rw [if_pos hdup, if_pos hdup]
      dsimp only [gpio_scan]
      simp [hqn]
    rw [hq1]
    dsimp only
    -- the tail block R is clean and fresh against seen1
    have hfreshR : ∀ k ∈ R, (seen1.any fun x => pyEq (.str (pinNameD k)) x) = false := by
      intro k hk
      rw [hseen1]
      simp only [List.nil_append, any_pyEq_strs]
      have hkR : pinNameD k ∈ R.map pinNameD := List.mem_map_of_mem pinNameD hk
      simp only [List.map_append, List.map_cons, List.map_nil, hpn]
      simp only [List.mem_append, List.mem_singleton, decide_eq_false_iff_not, not_or]
      refine ⟨⟨fun h => hdisj1 (List.mem_append.mpr (Or.inl h)) hkR, fun h => hnR (h ▸ hkR)⟩,
        fun h => hdisj1 (List.mem_append.mpr (Or.inr h)) hkR⟩
    have hR : ∀ idx, gpio_scan idx seen1 (R.map Value.map) =
        some (seen1 ++ (R.map pinNameD).map Value.str, []) := fun idx =>
      gpio_scan_clean R idx seen1
        (fun k hk => hgood k (by simp only [List.mem_append] at *; tauto))
        hfreshR hRnd
    rw [hR]
    simp
  · rw [validate_gpio_mk, h2]

/-- C4 witness: two pins both named `PA5` draw exactly one duplicate
error; the one-pin prefix draws none. -/
theorem C4_duplicate_pin_single_error_witness :
    validate_gpio_section (mkGpioCfg [
      [("pin", .str "PA5"), ("direction", .str "input"),
       ("pull", .str "none"), ("speed", .str "medium")],
      [("pin", .str "PA5"), ("direction", .str "input"),
       ("pull", .str "none"), ("speed", .str "medium")]]) =
      some ["duplicate pin PA5"] ∧
    validate_gpio_section (mkGpioCfg [
      [("pin", .str "PA5"), ("direction", .str "input"),
       ("pull", .str "none"), ("speed", .str "medium")]]) = some [] := by
  have h := C4_duplicate_pin_single_error [] [] []
    [("pin", .str "PA5"), ("direction", .str "input"),
     ("pull", .str "none"), ("speed", .str "medium")]
    [("pin", .str "PA5"), ("direction", .str "input"),
     ("pull", .str "none"), ("speed", .str "medium")]
    "PA5" (by decide) rfl rfl (by simp) (by simp)
  exact ⟨h.1, h.2⟩

/-! ## Claim C1 -/

/-- C1 (amended): every successfully emitted artifact consists of, in
order: the banner naming the board, the fixed header include, the GPIO
init function (always present, even with no pins), the concatenation of
one function definition per *enabled* UART instance, then per enabled
I2C instance, then per enabled timer (a category with no enabled
instances contributes the empty string, not an empty function), and
finally the aggregator entry point. -/
theorem C1_artifact_layout (c : Value) (out : String)
    (h : generate_c_file c = some out) :
    ∃ (b bn us is' ts : Value) (uElems iElems tElems : List Value)
      (uChunks iChunks tChunks : List String) (gpBody aggBody : String),
      pyGetD c "board" (.map []) = some b ∧
      pyGetD b "name" (.str "unknown_board") = some bn ∧
      write_gpio_c c = some ("static void init_gpio(void) \x7b\n" ++
        "    GPIO_InitTypeDef GpioStruct = \x7b0\x7d;\n\n" ++ gpBody ++ "\x7d\n\n") ∧
      readPath2 c "communication" "uart" = some us ∧ pyElems us = some uElems ∧
      optMapM write_uart_entity uElems = some uChunks ∧
      readPath2 c "communication" "i2c" = some is' ∧ pyElems is' = some iElems ∧
      optMapM write_i2c_entity iElems = some iChunks ∧
      pyGetD c "timers" (.list []) = some ts ∧ pyElems ts = some tElems ∧
      optMapM write_timer_entity tElems = some tChunks ∧
      out = "/* auto-generated for " ++ pyStr bn ++ " */\n" ++
        "#include \"stm32f4xx_hal.h\"\n\n" ++
        ("static void init_gpio(void) \x7b\n" ++
         "    GPIO_InitTypeDef GpioStruct = \x7b0\x7d;\n\n" ++ gpBody ++ "\x7d\n\n") ++
        strJoin uChunks ++ strJoin iChunks ++ strJoin tChunks ++
        ("void initialize_peripherals(void) \x7b\n    init_gpio();\n" ++
         aggBody ++ "\x7d\n") := by
  unfold generate_c_file at h
  cases hb : pyGetD c "board" (.map []) with
  | none => simp only [hb] at h; exact Option.noConfusion h
  | some b =>
  simp only [hb] at h
  cases hbn : pyGetD b "name" (.str "unknown_board") with
  | none => simp only [hbn] at h; exact Option.noConfusion h
  | some bn =>
  simp only [hbn] at h
  cases hgp : write_gpio_c c with
  | none => simp only [hgp] at h; exact Option.noConfusion h
  | some gp =>
  simp only [hgp] at h
  cases hua : write_uart_c c with
  | none => simp only [hua] at h; exact Option.noConfusion h
  | some ua =>
  simp only [hua] at h
  cases hic : write_i2c_c c with
  | none => simp only [hic] at h; exact Option.noConfusion h
  | some ic =>
  simp only [hic] at h
  cases htm : write_timer_c c with
  | none => simp only [htm] at h; exact Option.noConfusion h
  | some tm =>
  simp only [htm] at h
  cases hag : write_aggregator c with
  | none => simp only [hag] at h; exact Option.noConfusion h
  | some agg =>
  simp only [hag] at h
  rw [Option.some_inj] at h
  subst h
  -- invert the gpio writer
  unfold write_gpio_c at hgp
  cases hg1 : pyIndex c "gpio" with
  | none => simp only [hg1] at hgp; exact Option.noConfusion hgp
  | some g =>
  simp only [hg1] at hgp
  cases hg2 : pyIndex g "pins" with
  | none => simp only [hg2] at hgp; exact Option.noConfusion hgp
  | some pins =>
  simp only [hg2] at hgp
  cases hg3 : pyElems pins with
  | none => simp only [hg3] at hgp; exact Option.noConfusion hgp
  | some pes =>
  simp only [hg3] at hgp
  cases hg4 : gpio_pins_c [] pes with
  | none => simp only [hg4] at hgp; exact Option.noConfusion hgp
  | some pr =>
  obtain ⟨seenF, body⟩ := pr
  simp only [hg4] at hgp
  rw [Option.some_inj] at hgp
  subst hgp
  -- invert the uart writer
  unfold write_uart_c at hua
  cases hu1 : readPath2 c "communication" "uart" with
  | none => simp only [hu1] at hua; exact Option.noConfusion hua
  | some us =>
  simp only [hu1] at hua
  cases hu2 : pyElems us with
  | none => simp only [hu2] at hua; exact Option.noConfusion hua
  | some uElems =>
  simp only [hu2] at hua
  cases hu3 : optMapM write_uart_entity uElems with
  | none => simp only [hu3] at hua; exact Option.noConfusion hua
  | some uChunks =>
  simp only [hu3] at hua
  rw [Option.some_inj] at hua
  subst hua
  -- invert the i2c writer
  unfold write_i2c_c at hic
  cases hi1 : readPath2 c "communication" "i2c" with
  | none => simp only [hi1] at hic; exact Option.noConfusion hic
  | some is' =>
  simp only [hi1] at hic
  cases hi2 : pyElems is' with
  | none => simp only [hi2] at hic; exact Option.noConfusion hic
  | some iElems =>
  simp only [hi2] at hic
  cases hi3 : optMapM write_i2c_entity iElems with
  | none => simp only [hi3] at hic; exact Option.noConfusion hic
  | some iChunks =>
  simp only [hi3] at hic
  rw [Option.some_inj] at hic
  subst hic
  -- invert the timer writer
  unfold write_timer_c at htm
  cases ht1 : pyGetD c "timers" (.list []) with
  | none => simp only [ht1] at htm; exact Option.noConfusion htm
  | some ts =>
  simp only [ht1] at htm
  cases ht2 : pyElems ts with
  | none => simp only [ht2] at htm; exact Option.noConfusion htm
  | some tElems =>
  simp only [ht2] at htm
  cases ht3 : optMapM write_timer_entity tElems with
  | none => simp only [ht3] at htm; exact Option.noConfusion htm
  | some tChunks =>
  simp only [ht3] at htm
  rw [Option.some_inj] at htm
  subst htm
  -- invert the aggregator
  unfold write_aggregator at hag
  simp only [hu1, hu2] at hag
  cases ha1 : optMapM agg_entity uElems with
  | none => simp only [ha1] at hag; exact Option.noConfusion hag
  | some uL =>
  simp only [ha1] at hag
  simp only [hi1, hi2] at hag
  cases ha2 : optMapM agg_entity iElems with
  | none => simp only [ha2] at hag; exact Option.noConfusion hag
  | some iL =>
  simp only [ha2] at hag
  simp only [ht1, ht2] at hag
  cases ha3 : optMapM agg_entity tElems with
  | none => simp only [ha3] at hag; exact Option.noConfusion hag
  | some tL =>
  simp only [ha3] at hag
  rw [Option.some_inj] at hag
  subst hag
  exact ⟨b, bn, us, is', ts, uElems, iElems, tElems, uChunks, iChunks, tChunks,
    body, strJoin uL ++ strJoin iL ++ strJoin tL,
    rfl, hbn, rfl, rfl, hu2, hu3,
    rfl, hi2, hi3, rfl, ht2, ht3, by simp [String.append_assoc]⟩

/-- C1 (counterexample to the claim as stated): a configuration that
validates cleanly but has no UART instances yields an artifact whose
UART category contributes no function definition at all — `_write_uart_c`
writes one function per *enabled instance*, not one per category. -/
theorem C1_empty_category_no_function :
    load_and_validate cfg0 = some (cfg0, []) ∧ write_uart_c cfg0 = some "" :=
  ⟨rfl, rfl⟩

/-- C1 witness: the concrete artifact for `cfg0`, exhibiting the
amended layout (banner, include, GPIO function, empty UART/I2C/timer
categories, aggregator). -/
theorem C1_artifact_layout_witness :
    generate_c_file cfg0 = some
      ("/* auto-generated for X */\n#include \"stm32f4xx_hal.h\"\n\nstatic void init_gpio(void) \x7b\n    GPIO_InitTypeDef GpioStruct = \x7b0\x7d;\n\n    __HAL_RCC_GPIOA_CLK_ENABLE();\n    /* PA5:  */\n    GpioStruct.Pin = GPIO_PIN_5;\n    GpioStruct.Mode = GPIO_MODE_OUTPUT_PP;\n    GpioStruct.Pull = GPIO_NOPULL;\n    GpioStruct.Speed = GPIO_SPEED_FREQ_MEDIUM;\n    HAL_GPIO_Init(GPIOA, &GpioStruct);\n\n\x7d\n\nvoid initialize_peripherals(void) \x7b\n    init_gpio();\n\x7d\n") := by
  have h := C1_artifact_layout cfg0
    ("/* auto-generated for X */\n#include \"stm32f4xx_hal.h\"\n\nstatic void init_gpio(void) \x7b\n    GPIO_InitTypeDef GpioStruct = \x7b0\x7d;\n\n    __HAL_RCC_GPIOA_CLK_ENABLE();\n    /* PA5:  */\n    GpioStruct.Pin = GPIO_PIN_5;\n    GpioStruct.Mode = GPIO_MODE_OUTPUT_PP;\n    GpioStruct.Pull = GPIO_NOPULL;\n    GpioStruct.Speed = GPIO_SPEED_FREQ_MEDIUM;\n    HAL_GPIO_Init(GPIOA, &GpioStruct);\n\n\x7d\n\nvoid initialize_peripherals(void) \x7b\n    init_gpio();\n\x7d\n") rfl
  exact rfl

/-! ## Claim C6: idempotence of the Default Applier -/

/-- Association-list lookup over a concatenation. -/
theorem lookup_append (l1 l2 : List (String × Value)) (k : String) :
    List.lookup k (l1 ++ l2) =
      match List.lookup k l1 with
      | some v => some v
      | none => List.lookup k l2 := by
  induction l1 with
  | nil => simp [List.lookup]
  | cons kv rest ih =>
    obtain ⟨k', v'⟩ := kv
    simp only [List.cons_append, List.lookup]
    cases hbe : k == k' with
    | true => rfl
    | false => simp [ih]

/-- A present key survives appending. -/
theorem hasKey_append_left (kvs l : List (String × Value)) (k : String)
    (h : hasKey kvs k = true) : hasKey (kvs ++ l) k = true := by
  simp only [hasKey, lookup_append]
  simp only [hasKey] at h
  cases hv : List.lookup k kvs with
  | none => rw [hv] at h; simp at h
  | some v => simp

/-- The appended key is present. -/
theorem hasKey_append_single (kvs : List (String × Value)) (k : String) (v : Value) :
    hasKey (kvs ++ [(k, v)]) k = true := by
  simp only [hasKey, lookup_append]
  cases hv : List.lookup k kvs with
  | none => simp [List.lookup]
  | some w => simp

/-- The defaults loop never removes a key. -/
theorem addMissing_hasKey_mono (tbl : List (String × Value)) (kvs : List (String × Value))
    (k : String) (h : hasKey kvs k = true) : hasKey (addMissing kvs tbl) k = true := by
  induction tbl generalizing kvs with
  | nil => exact h
  | cons kv rest ih =>
    obtain ⟨k', v'⟩ := kv
    simp only [addMissing]
    split
    · exact ih kvs h
    · exact ih _ (hasKey_append_left kvs [(k', v')] k h)

/-- After the defaults loop every table key is present. -/
theorem addMissing_covers (tbl : List (String × Value)) (kvs : List (String × Value))
    (k : String) (v : Value) (h : (k, v) ∈ tbl) :
    hasKey (addMissing kvs tbl) k = true := by
  induction tbl generalizing kvs with
  | nil => simp at h
  | cons kv rest ih =>
    obtain ⟨k', v'⟩ := kv
    rcases List.mem_cons.mp h with he | hm
    · obtain ⟨hk, hv⟩ := Prod.mk.injEq .. ▸ he
      subst hk
      simp only [addMissing]
      split
      · next hh => exact addMissing_hasKey_mono rest kvs k hh
      · exact addMissing_hasKey_mono rest _ k (hasKey_append_single kvs k v')
    · simp only [addMissing]
      split <;> exact ih _ hm

/-- The defaults loop is a no-op when every table key is already
present. -/
theorem addMissing_stable (tbl : List (String × Value)) (kvs : List (String × Value))
    (h : ∀ kv ∈ tbl, hasKey kvs kv.1 = true) : addMissing kvs tbl = kvs := by
  induction tbl with
  | nil => rfl
  | cons kv rest ih =>
    obtain ⟨k', v'⟩ := kv
    simp only [addMissing]
    rw [if_pos (h (k', v') (by simp))]
    exact ih (fun kv hm => h kv (by simp [hm]))

/-- An entity that survived one defaults pass is a fixed point of a
second pass. -/
theorem entity_stable (tbl : List (String × Value)) (e e' : Value)
    (h : applyEntityDefaults tbl e = some e') :
    applyEntityDefaults tbl e' = some e' := by
  cases e with
  | map kvs =>
    simp only [applyEntityDefaults, Option.some_inj] at h
    subst h
    simp only [applyEntityDefaults, Option.some_inj]
    congr 1
    exact addMissing_stable tbl _
      (fun kv hm => addMissing_covers tbl kvs kv.1 kv.2 (by simpa using hm))
  | str s =>
    simp only [applyEntityDefaults] at h
    split at h
    · rw [Option.some_inj] at h
      subst h
      simp only [applyEntityDefaults]
      rw [if_pos (by assumption)]
    · exact Option.noConfusion h
  | list xs =>
    simp only [applyEntityDefaults] at h
    split at h
    · rw [Option.some_inj] at h
      subst h
      simp only [applyEntityDefaults]
      rw [if_pos (by assumption)]
    · exact Option.noConfusion h
  | null =>
    simp only [applyEntityDefaults] at h
    split at h
    · rw [Option.some_inj] at h
      subst h
      simp only [applyEntityDefaults]
      rw [if_pos (by assumption)]
    · exact Option.noConfusion h
  | bool b =>
    simp only [applyEntityDefaults] at h
    split at h
    · rw [Option.some_inj] at h
      subst h
      simp only [applyEntityDefaults]
      rw [if_pos (by assumption)]
    · exact Option.noConfusion h
  | int n =>
    simp only [applyEntityDefaults] at h
    split at h
    · rw [Option.some_inj] at h
      subst h
      simp only [applyEntityDefaults]
      rw [if_pos (by assumption)]
    · exact Option.noConfusion h

/-- A loop of individually stable steps is stable. -/
theorem optMapM_stable {α : Type} (f : α → Option α)
    (hf : ∀ x y, f x = some y → f y = some y) :
    ∀ xs ys, optMapM f xs = some ys → optMapM f ys = some ys := by
  intro xs
  induction xs with
  | nil =>
    intro ys h
    simp only [optMapM, Option.some_inj] at h
    subst h
    rfl
  | cons x rest ih =>
    intro ys h
    simp only [optMapM] at h
    cases hx : f x with
    | none => rw [hx] at h; exact Option.noConfusion h
    | some y =>
      rw [hx] at h
      cases hr : optMapM f rest with
      | none => simp only [hr] at h; exact Option.noConfusion h
      | some rs =>
        simp only [hr, Option.some_inj] at h
        subst h
        simp only [optMapM, hf x y hx]
        rw [ih rs hr]

/-- A category container that survived one pass is a fixed point of a
second pass. -/
theorem listApply_stable (tbl : List (String × Value)) (v v' : Value)
    (h : applyListDefaults tbl v = some v') :
    applyListDefaults tbl v' = some v' := by
  cases v with
  | list xs =>
    simp only [applyListDefaults] at h
    cases hm : optMapM (applyEntityDefaults tbl) xs with
    | none => rw [hm] at h; exact Option.noConfusion h
    | some ys =>
      rw [hm] at h
      simp only [Option.some_inj] at h
      subst h
      simp only [applyListDefaults]
      rw [optMapM_stable _ (entity_stable tbl) xs ys hm]
  | str s =>
    simp only [applyListDefaults, pyElems] at h
    cases hm : optMapM (applyEntityDefaults tbl)
        (s.toList.map (fun c => Value.str (String.singleton c))) with
    | none => rw [hm] at h; exact Option.noConfusion h
    | some ys =>
      rw [hm] at h
      simp only [Option.some_inj] at h
      subst h
      simp only [applyListDefaults, pyElems, hm]
  | map kvs =>
    simp only [applyListDefaults, pyElems] at h
    cases hm : optMapM (applyEntityDefaults tbl) (kvs.map (fun kv => Value.str kv.1)) with
    | none => rw [hm] at h; exact Option.noConfusion h
    | some ys =>
      rw [hm] at h
      simp only [Option.some_inj] at h
      subst h
      simp only [applyListDefaults, pyElems, hm]
  | null => simp [applyListDefaults, pyElems] at h
  | bool b => simp [applyListDefaults, pyElems] at h
  | int n => simp [applyListDefaults, pyElems] at h

/-- Reading back a rewritten key. -/
theorem lookup_setKey_self (kvs : List (String × Value)) (k : String) (v w : Value)
    (h : List.lookup k kvs = some w) :
    List.lookup k (setKey kvs k v) = some v := by
  induction kvs with
  | nil => simp [List.lookup] at h
  | cons kv rest ih =>
    obtain ⟨k', v'⟩ := kv
    simp only [List.lookup] at h
    simp only [setKey]
    by_cases hk : k' = k
    · subst hk
      simp [List.lookup]
    · rw [if_neg hk]
      simp only [List.lookup]
      have hbe : (k == k') = false := by
        simp only [beq_eq_false_iff_ne]
        exact fun hc => hk hc.symm
      rw [hbe] at h ⊢
      exact ih h

/-- Rewriting one key leaves the others unchanged. -/
theorem lookup_setKey_ne (kvs : List (String × Value)) (k k' : String) (v : Value)
    (h : k' ≠ k) :
    List.lookup k' (setKey kvs k v) = List.lookup k' kvs := by
  induction kvs with
  | nil => rfl
  | cons kv rest ih =>
    obtain ⟨k0, v0⟩ := kv
    simp only [setKey]
    by_cases hk : k0 = k
    · subst hk
      have hbe : (k' == k0) = false := beq_eq_false_iff_ne.mpr h
      simp [List.lookup, hbe]
    · rw [if_neg hk]
      simp only [List.lookup, ih]

/-- Rewriting a key with its current value changes nothing. -/
theorem setKey_lookup_self (kvs : List (String × Value)) (k : String) (v : Value)
    (h : List.lookup k kvs = some v) : setKey kvs k v = kvs := by
  induction kvs with
  | nil => rfl
  | cons kv rest ih =>
    obtain ⟨k', v'⟩ := kv
    simp only [List.lookup] at h
    simp only [setKey]
    by_cases hk : k' = k
    · subst hk
      simp only [List.lookup, beq_self_eq_true] at h
      simp only [Option.some_inj] at h
      subst h
      simp
    · rw [if_neg hk]
      have hbe : (k == k') = false := by
        simp only [beq_eq_false_iff_ne]
        exact fun hc => hk hc.symm
      rw [hbe] at h
      rw [ih h]

/-- The empty category list is a fixed point. -/
theorem applyListDefaults_nil (tbl : List (String × Value)) :
    applyListDefaults tbl (.list []) = some (.list []) := rfl

/-- What one nested category pass does to a mapping: nothing when the
path is absent, otherwise the entity list is rewritten in place (or the
pass raises). -/
theorem stepPath2_map_eq (k1 k2 : String) (tbl : List (String × Value))
    (kvs : List (String × Value)) :
    stepPath2 k1 k2 tbl (.map kvs) =
      match List.lookup k1 kvs with
      | none => some (.map kvs)
      | some (.map inner) =>
        match List.lookup k2 inner with
        | none => some (.map kvs)
        | some xs0 =>
          match applyListDefaults tbl xs0 with
          | none => none
          | some xs' => some (.map (setKey kvs k1 (.map (setKey inner k2 xs'))))
      | some _ => none := by
  simp only [stepPath2, readPath2, pyGetD]
  cases hl1 : List.lookup k1 kvs with
  | none =>
    simp only [Option.getD_none, List.lookup, applyListDefaults_nil]
    simp [setPath2, hl1]
  | some g =>
    cases g with
    | map inner =>
      simp only [Option.getD_some]
      cases hl2 : List.lookup k2 inner with
      | none =>
        simp only [Option.getD_none, applyListDefaults_nil]
        simp [setPath2, hl1, hasKey, hl2]
      | some xs0 =>
        simp only [Option.getD_some]
        cases ha : applyListDefaults tbl xs0 with
        | none => rfl
        | some xs' =>
          simp [setPath2, hl1, hasKey, hl2]
    | null => rfl
    | bool b => rfl
    | int n => rfl
    | str s => rfl
    | list xs => rfl

/-- Same, for the flat `timers` path. -/
theorem stepPath1_map_eq (k : String) (tbl : List (String × Value))
    (kvs : List (String × Value)) :
    stepPath1 k tbl (.map kvs) =
      match List.lookup k kvs with
      | none => some (.map kvs)
      | some xs0 =>
        match applyListDefaults tbl xs0 with
        | none => none
        | some xs' => some (.map (setKey kvs k xs')) := by
  simp only [stepPath1, pyGetD]
  cases hl : List.lookup k kvs with
  | none =>
    simp only [Option.getD_none, applyListDefaults_nil]
    simp [setPath1, hasKey, hl]
  | some xs0 =>
    simp only [Option.getD_some]
    cases ha : applyListDefaults tbl xs0 with
    | none => rfl
    | some xs' =>
      simp [setPath1, hasKey, hl]

/-- A category pass over a non-mapping configuration raises
(`.get` on a non-dict). -/
theorem stepPath2_not_map (k1 k2 : String) (tbl : List (String × Value)) (c : Value)
    (h : ∀ kvs, c ≠ .map kvs) : stepPath2 k1 k2 tbl c = none := by
  cases c <;> first | rfl | exact absurd rfl (h _)

/-- A configuration produced by a nested category pass is a fixed point
of that pass. -/
theorem stepPath2_stable (k1 k2 : String) (tbl : List (String × Value)) (c c' : Value)
    (h : stepPath2 k1 k2 tbl c = some c') : stepPath2 k1 k2 tbl c' = some c' := by
  cases c with
  | map kvs =>
    rw [stepPath2_map_eq] at h
    cases hl1 : List.lookup k1 kvs with
    | none =>
      rw [hl1] at h
      rw [Option.some_inj] at h
      subst h
      rw [stepPath2_map_eq, hl1]
    | some g =>
      rw [hl1] at h
      cases g with
      | map inner =>
        dsimp only at h
        cases hl2 : List.lookup k2 inner with
        | none =>
          rw [hl2] at h
          rw [Option.some_inj] at h
          subst h
          rw [stepPath2_map_eq, hl1]
          dsimp only
          rw [hl2]
        | some xs0 =>
          rw [hl2] at h
          dsimp only at h
          cases ha : applyListDefaults tbl xs0 with
          | none => rw [ha] at h; exact Option.noConfusion h
          | some xs' =>
            rw [ha] at h
            dsimp only at h
            rw [Option.some_inj] at h
            subst h
            rw [stepPath2_map_eq]
            rw [lookup_setKey_self kvs k1 _ _ hl1]
            dsimp only
            rw [lookup_setKey_self inner k2 _ _ hl2]
            dsimp only
            rw [listApply_stable tbl xs0 xs' ha]
            dsimp only
            rw [setKey_lookup_self (setKey inner k2 xs') k2 xs'
              (lookup_setKey_self inner k2 xs' xs0 hl2)]
            rw [setKey_lookup_self (setKey kvs k1 (.map (setKey inner k2 xs'))) k1
              (.map (setKey inner k2 xs'))
              (lookup_setKey_self kvs k1 (.map (setKey inner k2 xs')) _ hl1)]
      | null => exact Option.noConfusion h
      | bool b => exact Option.noConfusion h
      | int n => exact Option.noConfusion h
      | str s => exact Option.noConfusion h
      | list xs => exact Option.noConfusion h
  | null => exact Option.noConfusion h
  | bool b => exact Option.noConfusion h
  | int n => exact Option.noConfusion h
  | str s => exact Option.noConfusion h
  | list xs => exact Option.noConfusion h

/-- A configuration produced by the flat pass is a fixed point of that
pass. -/
theorem stepPath1_stable (k : String) (tbl : List (String × Value)) (c c' : Value)
    (h : stepPath1 k tbl c = some c') : stepPath1 k tbl c' = some c' := by
  cases c with
  | map kvs =>
    rw [stepPath1_map_eq] at h
    cases hl : List.lookup k kvs with
    | none =>
      rw [hl] at h
      rw [Option.some_inj] at h
      subst h
      rw [stepPath1_map_eq, hl]
    | some xs0 =>
      rw [hl] at h
      dsimp only at h
      cases ha : applyListDefaults tbl xs0 with
      | none => rw [ha] at h; exact Option.noConfusion h
      | some xs' =>
        rw [ha] at h
        dsimp only at h
        rw [Option.some_inj] at h
        subst h
        rw [stepPath1_map_eq]
        rw [lookup_setKey_self kvs k _ _ hl]
        dsimp only
        rw [listApply_stable tbl xs0 xs' ha]
        dsimp only
        rw [setKey_lookup_self (setKey kvs k xs') k xs'
          (lookup_setKey_self kvs k xs' xs0 hl)]
  | null => exact Option.noConfusion h
  | bool b => exact Option.noConfusion h
  | int n => exact Option.noConfusion h
  | str s => exact Option.noConfusion h
  | list xs => exact Option.noConfusion h

/-- Stability under one nested pass survives another nested pass that
writes under a different top-level key. -/
theorem stable2_preserved_other_top (k1 k2 m1 m2 : String)
    (tbl tbl' : List (String × Value)) (c c'' : Value)
    (hne : k1 ≠ m1)
    (hst : stepPath2 k1 k2 tbl c = some c)
    (hstep : stepPath2 m1 m2 tbl' c = some c'') :
    stepPath2 k1 k2 tbl c'' = some c'' := by
  cases c with
  | map kvs =>
    rw [stepPath2_map_eq] at hstep
    cases hm1 : List.lookup m1 kvs with
    | none =>
      rw [hm1] at hstep
      rw [Option.some_inj] at hstep
      subst hstep
      exact hst
    | some g =>
      rw [hm1] at hstep
      cases g with
      | map innerM =>
        dsimp only at hstep
        cases hm2 : List.lookup m2 innerM with
        | none =>
          rw [hm2] at hstep
          rw [Option.some_inj] at hstep
          subst hstep
          exact hst
        | some ys0 =>
          rw [hm2] at hstep
          dsimp only at hstep
          cases hay : applyListDefaults tbl' ys0 with
          | none => rw [hay] at hstep; exact Option.noConfusion hstep
          | some ys' =>
            rw [hay] at hstep
            dsimp only at hstep
            rw [Option.some_inj] at hstep
            subst hstep
            rw [stepPath2_map_eq] at hst ⊢
            rw [lookup_setKey_ne kvs m1 k1 (.map (setKey innerM m2 ys')) hne]
            cases hk1 : List.lookup k1 kvs with
            | none => rfl
            | some gk =>
              rw [hk1] at hst
              cases gk with
              | map inner =>
                dsimp only at hst ⊢
                cases hk2 : List.lookup k2 inner with
                | none => rfl
                | some xs0 =>
                  rw [hk2] at hst
                  dsimp only at hst ⊢
                  cases hax : applyListDefaults tbl xs0 with
                  | none => rw [hax] at hst; exact Option.noConfusion hst
                  | some xs' =>
                    rw [hax] at hst
                    dsimp only at hst ⊢
                    rw [Option.some_inj] at hst
                    have hkvs : setKey kvs k1 (Value.map (setKey inner k2 xs')) = kvs :=
                      Value.map.inj hst
                    have h1 : Value.map (setKey inner k2 xs') = Value.map inner := by
                      have h2 := lookup_setKey_self kvs k1
                        (Value.map (setKey inner k2 xs')) (Value.map inner) hk1
                      rw [hkvs, hk1] at h2
                      exact (Option.some_inj.mp h2).symm
                    rw [h1]
                    rw [setKey_lookup_self (setKey kvs m1 (Value.map (setKey innerM m2 ys')))
                      k1 (Value.map inner)
                      (by rw [lookup_setKey_ne kvs m1 k1 _ hne, hk1])]
              | null => exact Option.noConfusion hst
              | bool b => exact Option.noConfusion hst
              | int n => exact Option.noConfusion hst
              | str s => exact Option.noConfusion hst
              | list xs => exact Option.noConfusion hst
      | null => exact Option.noConfusion hstep
      | bool b => exact Option.noConfusion hstep
      | int n => exact Option.noConfusion hstep
      | str s => exact Option.noConfusion hstep
      | list xs => exact Option.noConfusion hstep
  | null => exact Option.noConfusion hstep
  | bool b => exact Option.noConfusion hstep
  | int n => exact Option.noConfusion hstep
  | str s => exact Option.noConfusion hstep
  | list xs => exact Option.noConfusion hstep

/-- Stability under one nested pass survives another nested pass that
writes a different key of the same top-level section (the `uart` /
`i2c` pair under `communication`). -/
theorem stable2_preserved_same_top (k1 k2 m2 : String)
    (tbl tbl' : List (String × Value)) (c c'' : Value)
    (hne : k2 ≠ m2)
    (hst : stepPath2 k1 k2 tbl c = some c)
    (hstep : stepPath2 k1 m2 tbl' c = some c'') :
    stepPath2 k1 k2 tbl c'' = some c'' := by
  cases c with
  | map kvs =>
    rw [stepPath2_map_eq] at hstep
    cases hk1 : List.lookup k1 kvs with
    | none =>
      rw [hk1] at hstep
      rw [Option.some_inj] at hstep
      subst hstep
      exact hst
    | some g =>
      rw [hk1] at hstep
      cases g with
      | map innerM =>
        dsimp only at hstep
        cases hm2 : List.lookup m2 innerM with
        | none =>
          rw [hm2] at hstep
          rw [Option.some_inj] at hstep
          subst hstep
          exact hst
        | some ys0 =>
          rw [hm2] at hstep
          dsimp only at hstep
          cases hay : applyListDefaults tbl' ys0 with
          | none => rw [hay] at hstep; exact Option.noConfusion hstep
          | some ys' =>
            rw [hay] at hstep
            dsimp only at hstep
            rw [Option.some_inj] at hstep
            subst hstep
            rw [stepPath2_map_eq] at hst ⊢
            rw [hk1] at hst
            dsimp only at hst
            rw [lookup_setKey_self kvs k1 (Value.map (setKey innerM m2 ys'))
              (Value.map innerM) hk1]
            dsimp only
            rw [lookup_setKey_ne innerM m2 k2 ys' hne]
            cases hk2 : List.lookup k2 innerM with
            | none => rfl
            | some xs0 =>
              rw [hk2] at hst
              dsimp only at hst ⊢
              cases hax : applyListDefaults tbl xs0 with
              | none => rw [hax] at hst; exact Option.noConfusion hst
              | some xs' =>
                rw [hax] at hst
                dsimp only at hst ⊢
                rw [Option.some_inj] at hst
                have hkvs : setKey kvs k1 (Value.map (setKey innerM k2 xs')) = kvs :=
                  Value.map.inj hst
                have h1 : Value.map (setKey innerM k2 xs') = Value.map innerM := by
                  have h2 := lookup_setKey_self kvs k1
                    (Value.map (setKey innerM k2 xs')) (Value.map innerM) hk1
                  rw [hkvs, hk1] at h2
                  exact (Option.some_inj.mp h2).symm
                have h1' : setKey innerM k2 xs' = innerM := Value.map.inj h1
                have h2 : some xs' = some xs0 := by
                  rw [← hk2]
                  conv =>
                    rhs
                    rw [← h1']
                  rw [lookup_setKey_self innerM k2 xs' xs0 hk2]
                have h2' : xs' = xs0 := Option.some_inj.mp h2
                rw [setKey_lookup_self (setKey innerM m2 ys') k2 xs'
                  (by rw [lookup_setKey_ne innerM m2 k2 ys' hne, hk2, h2'])]
                rw [setKey_lookup_self (setKey kvs k1 (Value.map (setKey innerM m2 ys')))
                  k1 (Value.map (setKey innerM m2 ys'))
                  (lookup_setKey_self kvs k1 (Value.map (setKey innerM m2 ys')) _ hk1)]
      | null => exact Option.noConfusion hstep
      | bool b => exact Option.noConfusion hstep
      | int n => exact Option.noConfusion hstep
      | str s => exact Option.noConfusion hstep
      | list xs => exact Option.noConfusion hstep
  | null => exact Option.noConfusion hstep
  | bool b => exact Option.noConfusion hstep
  | int n => exact Option.noConfusion hstep
  | str s => exact Option.noConfusion hstep
  | list xs => exact Option.noConfusion hstep

/-- Stability under a nested pass survives the flat `timers` pass. -/
theorem stable2_preserved_path1 (k1 k2 m : String)
    (tbl tbl' : List (String × Value)) (c c'' : Value)
    (hne : k1 ≠ m)
    (hst : stepPath2 k1 k2 tbl c = some c)
    (hstep : stepPath1 m tbl' c = some c'') :
    stepPath2 k1 k2 tbl c'' = some c'' := by
  cases c with
  | map kvs =>
    rw [stepPath1_map_eq] at hstep
    cases hm : List.lookup m kvs with
    | none =>
      rw [hm] at hstep
      rw [Option.some_inj] at hstep
      subst hstep
      exact hst
    | some ys0 =>
      rw [hm] at hstep
      dsimp only at hstep
      cases hay : applyListDefaults tbl' ys0 with
      | none => rw [hay] at hstep; exact Option.noConfusion hstep
      | some ys' =>
        rw [hay] at hstep
        dsimp only at hstep
        rw [Option.some_inj] at hstep
        subst hstep
        rw [stepPath2_map_eq] at hst ⊢
        rw [lookup_setKey_ne kvs m k1 ys' hne]
        cases hk1 : List.lookup k1 kvs with
        | none => rfl
        | some gk =>
          rw [hk1] at hst
          cases gk with
          | map inner =>
            dsimp only at hst ⊢
            cases hk2 : List.lookup k2 inner with
            | none => rfl
            | some xs0 =>
              rw [hk2] at hst
              dsimp only at hst ⊢
              cases hax : applyListDefaults tbl xs0 with
              | none => rw [hax] at hst; exact Option.noConfusion hst
              | some xs' =>
                rw [hax] at hst
                dsimp only at hst ⊢
                rw [Option.some_inj] at hst
                have hkvs : setKey kvs k1 (Value.map (setKey inner k2 xs')) = kvs :=
                  Value.map.inj hst
                have h1 : Value.map (setKey inner k2 xs') = Value.map inner := by
                  have h2 := lookup_setKey_self kvs k1
                    (Value.map (setKey inner k2 xs')) (Value.map inner) hk1
                  rw [hkvs, hk1] at h2
                  exact (Option.some_inj.mp h2).symm
                rw [h1]
                rw [setKey_lookup_self (setKey kvs m ys') k1 (Value.map inner)
                  (by rw [lookup_setKey_ne kvs m k1 ys' hne, hk1])]
          | null => exact Option.noConfusion hst
          | bool b => exact Option.noConfusion hst
          | int n => exact Option.noConfusion hst
          | str s => exact Option.noConfusion hst
          | list xs => exact Option.noConfusion hst
  | null => exact Option.noConfusion hstep
  | bool b => exact Option.noConfusion hstep
  | int n => exact Option.noConfusion hstep
  | str s => exact Option.noConfusion hstep
  | list xs => exact Option.noConfusion hstep

/-- C6: the Default Applier is idempotent — whenever `_apply_defaults`
maps a configuration to a result (rather than raising), running it again
on the result changes nothing: every field filled by the first pass is
present afterwards, so the second pass is the identity. -/
theorem C6_apply_defaults_idempotent (c c' : Value)
    (h : apply_defaults c = some c') : apply_defaults c' = some c' := by
  unfold apply_defaults at h
  cases h1 : stepPath2 "gpio" "pins" gpio_defaults c with
  | none => rw [h1] at h; exact Option.noConfusion h
  | some c1 =>
  rw [h1] at h
  dsimp only at h
  cases h2 : stepPath2 "communication" "uart" uart_defaults c1 with
  | none => rw [h2] at h; exact Option.noConfusion h
  | some c2 =>
  rw [h2] at h
  dsimp only at h
  cases h3 : stepPath2 "communication" "i2c" i2c_defaults c2 with
  | none => rw [h3] at h; exact Option.noConfusion h
  | some c3 =>
  rw [h3] at h
  dsimp only at h
  have st1 : stepPath2 "gpio" "pins" gpio_defaults c1 = some c1 :=
    stepPath2_stable _ _ _ _ _ h1
  have st1b := stable2_preserved_other_top "gpio" "pins" "communication" "uart"
    gpio_defaults uart_defaults c1 c2 (by decide) st1 h2
  have st1c := stable2_preserved_other_top "gpio" "pins" "communication" "i2c"
    gpio_defaults i2c_defaults c2 c3 (by decide) st1b h3
  have st1d := stable2_preserved_path1 "gpio" "pins" "timers"
    gpio_defaults timers_defaults c3 c' (by decide) st1c h
  have st2 : stepPath2 "communication" "uart" uart_defaults c2 = some c2 :=
    stepPath2_stable _ _ _ _ _ h2
  have st2b := stable2_preserved_same_top "communication" "uart" "i2c"
    uart_defaults i2c_defaults c2 c3 (by decide) st2 h3
  have st2c := stable2_preserved_path1 "communication" "uart" "timers"
    uart_defaults timers_defaults c3 c' (by decide) st2b h
  have st3 : stepPath2 "communication" "i2c" i2c_defaults c3 = some c3 :=
    stepPath2_stable _ _ _ _ _ h3
  have st3b := stable2_preserved_path1 "communication" "i2c" "timers"
    i2c_defaults timers_defaults c3 c' (by decide) st3 h
  have st4 : stepPath1 "timers" timers_defaults c' = some c' :=
    stepPath1_stable _ _ _ _ h
  unfold apply_defaults
  rw [st1d]
  dsimp only
  rw [st2c]
  dsimp only
  rw [st3b]
  dsimp only
  exact st4

/-- C6 witness: a concrete sparse configuration is filled by the first
pass and untouched by the second. -/
theorem C6_apply_defaults_idempotent_witness :
    apply_defaults cfgSparse = some cfgFilled ∧
    apply_defaults cfgFilled = some cfgFilled :=
  ⟨rfl, C6_apply_defaults_idempotent cfgSparse cfgFilled rfl⟩
